import Mathlib

/-!
Verification of the courseCreator repository's artifact-generation pipeline.

The Python source is shallowly embedded: JSON-like Python runtime values
become the inductive `PyVal`; operations that can raise in Python
(`int(...)`, iteration over a non-iterable, attribute access, …) return
`Except PyErr`; Python `try/except` blocks become explicit matches on the
`Except` result.  String contents follow the source literally; Python's
`str()` of containers is rendered by a faithful recursive `repr`
(quote-escaping inside `repr` of strings is not modelled since no theorem
observes it).
-/

namespace CourseCreator

/-- Python runtime exceptions that the embedded code can raise. -/
inductive PyErr where
  | typeError
  | valueError
  | attributeError (name : String)
  | apiError
  | jsonDecodeError
  | missingOpenAIKey
deriving Repr, DecidableEq

/-- JSON-like Python runtime values (`None`, `bool`, `int`, `str`, `list`,
`dict` with string keys, which is what `json.loads` produces). -/
inductive PyVal where
  | none
  | bool (b : Bool)
  | int (n : Int)
  | str (s : String)
  | list (xs : List PyVal)
  | dict (kvs : List (String × PyVal))
deriving Repr

/-- Python truthiness (`bool(v)`). -/
def truthy : PyVal → Bool
  | .none => false
  | .bool b => b
  | .int n => n != 0
  | .str s => !s.isEmpty
  | .list xs => !xs.isEmpty
  | .dict kvs => !kvs.isEmpty

/-- First-match association lookup with a default: `d.get(k, default)`
for a value already known to be a dict. -/
def lookupD (kvs : List (String × PyVal)) (k : String) (d : PyVal) : PyVal :=
  match kvs.lookup k with
  | some v => v
  | Option.none => d

/-- `v.get(k, default)`: dict lookup, `AttributeError` when `v` is not a
dict (Python objects without a `get` method). -/
def dictGet (v : PyVal) (k : String) (d : PyVal) : Except PyErr PyVal :=
  match v with
  | .dict kvs => .ok (lookupD kvs k d)
  | _ => .error (.attributeError "get")

/-- Python iteration (`for x in v` / `list(v)`): lists yield their
elements, strings their characters (as 1-char strings), dicts their keys;
everything else raises `TypeError`. -/
def pyIter : PyVal → Except PyErr (List PyVal)
  | .list xs => .ok xs
  | .str s => .ok (s.toList.map fun c => .str (String.singleton c))
  | .dict kvs => .ok (kvs.map fun kv => .str kv.1)
  | _ => .error .typeError

mutual

/-- Python `repr` of a value (element rendering used by `str` on
containers); string quote-escaping is not modelled. -/
def pyReprV : PyVal → String
  | .none => "None"
  | .bool b => if b then "True" else "False"
  | .int n => toString n
  | .str s => "'" ++ s ++ "'"
  | .list xs => "[" ++ pyReprList xs ++ "]"
  | .dict kvs => "\x7b" ++ pyReprDict kvs ++ "\x7d"

/-- Comma-separated `repr` of list elements. -/
def pyReprList : List PyVal → String
  | [] => ""
  | [x] => pyReprV x
  | x :: xs => pyReprV x ++ ", " ++ pyReprList xs

/-- Comma-separated `repr` of dict items. -/
def pyReprDict : List (String × PyVal) → String
  | [] => ""
  | [(k, v)] => "'" ++ k ++ "': " ++ pyReprV v
  | (k, v) :: kvs => "'" ++ k ++ "': " ++ pyReprV v ++ ", " ++ pyReprDict kvs

end

/-- Python `str(v)`. -/
def pyStr : PyVal → String
  | .str s => s
  | v => pyReprV v

/-- ASCII whitespace recognised by Python's `str.strip()`. -/
def wsChar (c : Char) : Bool :=
  c == ' ' || c == '\t' || c == '\n' || c == '\r' || c == '\x0b' || c == '\x0c'

/-- `str.strip()` on the underlying character list. -/
def stripL (l : List Char) : List Char :=
  ((l.dropWhile wsChar).reverse.dropWhile wsChar).reverse

/-- `str.strip()`. -/
def stripS (s : String) : String :=
  String.mk (stripL s.data)

/-- `int(s)` for a string: optional sign after stripped whitespace, then
at least one digit (Python's underscore digit grouping is not modelled;
no embedded input uses it). -/
def parseIntStr (s : String) : Except PyErr Int :=
  let t := stripL s.data
  let (sign, digits) :=
    match t with
    | '-' :: rest => ((-1 : Int), rest)
    | '+' :: rest => ((1 : Int), rest)
    | _ => ((1 : Int), t)
  if digits.isEmpty then .error .valueError
  else if digits.all Char.isDigit then
    .ok (sign * (digits.foldl (fun acc c => acc * 10 + (c.toNat - '0'.toNat)) 0 : Nat))
  else .error .valueError

/-- Python `int(v)`: ints pass through, bools become 0/1, strings are
parsed (`ValueError` on failure), everything else raises `TypeError`. -/
def pyInt : PyVal → Except PyErr Int
  | .int n => .ok n
  | .bool b => .ok (if b then 1 else 0)
  | .str s => parseIntStr s
  | _ => .error .typeError

/-- `isOkE e` iff the embedded computation did not raise. -/
def isOkE {ε α : Type} : Except ε α → Bool
  | .ok _ => true
  | .error _ => false

/-!
## Generator-side domain model (`src/generator/models.py`)

Python dataclasses perform no runtime validation, so fields that the
parsers fill with unchecked values (`item.get(...)`, `list(...)` results)
are typed `PyVal` / `List PyVal`; fields the parsers always build with
`str(...)` or `int(...)` get the corresponding Lean type.
-/

/-- `models.OutlineSection`. -/
structure OutlineSection where
  title : String
  objectives : List PyVal
  duration_minutes : PyVal
  subtopics : List PyVal
deriving Repr

/-- `models.ClassOutline`; `title` is whatever truthy value
`payload.get("title")` returned, hence `PyVal`. -/
structure ClassOutline where
  title : PyVal
  sections : List OutlineSection
deriving Repr

/-- `models.InstructorSection`. -/
structure InstructorSection where
  title : String
  learning_objectives : List PyVal
  instructional_steps : List PyVal
  key_points : List PyVal
  estimated_time_minutes : PyVal
deriving Repr

/-- `models.InstructorGuide` (defaults mirror the dataclass defaults). -/
structure InstructorGuide where
  training_plan_and_goals : String := ""
  target_audience : String := ""
  prerequisites : String := ""
  office365_status : String := ""
  learning_objectives : List PyVal := []
  required_materials_and_equipment : List PyVal := []
  instructor_setup : List PyVal := []
  participant_setup : List PyVal := []
  handouts : List PyVal := []
  class_type : String := ""
  class_checklist_before : List PyVal := []
  class_checklist_start : List PyVal := []
  class_checklist_after : List PyVal := []
  sections : List InstructorSection := []
deriving Repr

/-- `models.VideoSegment`. -/
structure VideoSegment where
  title : String
  narration : String
  screen_directions : String
  approx_duration_seconds : PyVal
deriving Repr

/-- `models.VideoScript`. -/
structure VideoScript where
  segments : List VideoSegment
deriving Repr

/-- `models.QuickRefStep`. -/
structure QuickRefStep where
  step_number : Int
  title : String
  action : String
  notes : PyVal
deriving Repr

/-- `models.QuickReferenceGuide`. -/
structure QuickReferenceGuide where
  steps : List QuickRefStep
deriving Repr

/-!
## Artifact parsers (`src/generator/generator.py`)

Each inner `try: sections.append(Type(...)) except Exception: continue`
becomes a fold that appends on `.ok` and skips on `.error`.  `list(x or [])`
becomes `listOr`, `str(x or "")` becomes `strOr`.
-/

/-- `list(v or [])`: the `or []` rescues falsy values, then `list(...)`
iterates (raising `TypeError` on truthy non-iterables). -/
def listOr (v : PyVal) : Except PyErr (List PyVal) :=
  pyIter (if truthy v then v else .list [])

/-- `str(v or "")`. -/
def strOr (v : PyVal) : String :=
  pyStr (if truthy v then v else .str "")

/-- One iteration body of `_parse_outline`'s section loop:
`OutlineSection(title=str(item.get("title", "Untitled Section")), ...)`.
Arguments evaluate left to right, as in Python. -/
def parseOutlineItem (item : PyVal) : Except PyErr OutlineSection := do
  let t ← dictGet item "title" (.str "Untitled Section")
  let objsRaw ← dictGet item "objectives" (.list [])
  let objs ← listOr objsRaw
  let dur ← dictGet item "duration_minutes" .none
  let subsRaw ← dictGet item "subtopics" (.list [])
  let subs ← listOr subsRaw
  pure { title := pyStr t, objectives := objs, duration_minutes := dur, subtopics := subs }

/-- `try: append … except Exception: continue` over raw items. -/
def dropFold {α : Type} (f : PyVal → Except PyErr α) (items : List PyVal) : List α :=
  items.foldl (fun acc it => match f it with | .ok x => acc ++ [x] | .error _ => acc) []

/-- `generator._parse_outline`.  The `for item in sections_data` loop
raises `TypeError` (uncaught) when the value under `"sections"` is not
iterable. -/
def parseOutline (payload : PyVal) (course_title class_type : String) :
    Except PyErr ClassOutline := do
  let sectionsData := match payload with
    | .dict kvs => lookupD kvs "sections" (.list [])
    | _ => .list []
  let items ← pyIter sectionsData
  let sections := dropFold parseOutlineItem items
  let titleV := match payload with
    | .dict kvs => lookupD kvs "title" .none
    | _ => .none
  pure { title := if truthy titleV then titleV
                  else .str (course_title ++ " (" ++ class_type ++ ")"),
         sections := sections }

/-- One iteration body of `_parse_instructor_guide`'s section loop. -/
def parseInstructorItem (item : PyVal) : Except PyErr InstructorSection := do
  let t ← dictGet item "title" (.str "Untitled Topic")
  let lo ← listOr (← dictGet item "learning_objectives" (.list []))
  let steps ← listOr (← dictGet item "instructional_steps" (.list []))
  let kp ← listOr (← dictGet item "key_points" (.list []))
  let et ← dictGet item "estimated_time_minutes" .none
  pure { title := pyStr t, learning_objectives := lo, instructional_steps := steps,
         key_points := kp, estimated_time_minutes := et }

/-- `generator._parse_instructor_guide`: early `InstructorGuide()` return
for non-dict payloads; then the section loop and the field assignments in
source order.  The `list(payload.get(k, []) or [])` assignments raise
`TypeError` (uncaught) on truthy non-iterable values. -/
def parseInstructorGuide (payload : PyVal) : Except PyErr InstructorGuide :=
  match payload with
  | .dict kvs => do
      let items ← listOr (lookupD kvs "sections" (.list []))
      let sections := dropFold parseInstructorItem items
      let training := strOr (lookupD kvs "training_plan_and_goals" (.str ""))
      let audience := strOr (lookupD kvs "target_audience" (.str ""))
      let prereq := strOr (lookupD kvs "prerequisites" (.str ""))
      let o365 := strOr (lookupD kvs "office365_status" (.str ""))
      let lo ← listOr (lookupD kvs "learning_objectives" (.list []))
      let materials ← listOr (lookupD kvs "required_materials_and_equipment" (.list []))
      let iSetup ← listOr (lookupD kvs "instructor_setup" (.list []))
      let pSetup ← listOr (lookupD kvs "participant_setup" (.list []))
      let handouts ← listOr (lookupD kvs "handouts" (.list []))
      let cType := strOr (lookupD kvs "class_type" (.str ""))
      let before ← listOr (lookupD kvs "class_checklist_before" (.list []))
      let start ← listOr (lookupD kvs "class_checklist_start" (.list []))
      let after ← listOr (lookupD kvs "class_checklist_after" (.list []))
      pure { training_plan_and_goals := training, target_audience := audience,
             prerequisites := prereq, office365_status := o365,
             learning_objectives := lo,
             required_materials_and_equipment := materials,
             instructor_setup := iSetup, participant_setup := pSetup,
             handouts := handouts, class_type := cType,
             class_checklist_before := before, class_checklist_start := start,
             class_checklist_after := after, sections := sections }
  | _ => pure {}

/-- One iteration body of `_parse_video_script`'s segment loop. -/
def parseSegmentItem (item : PyVal) : Except PyErr VideoSegment := do
  let t ← dictGet item "title" (.str "Untitled Segment")
  let narr ← dictGet item "narration" (.str "")
  let dirs ← dictGet item "screen_directions" (.str "")
  let dur ← dictGet item "approx_duration_seconds" .none
  pure { title := pyStr t, narration := pyStr narr,
         screen_directions := pyStr dirs, approx_duration_seconds := dur }

/-- `generator._parse_video_script`. -/
def parseVideoScript (payload : PyVal) : Except PyErr VideoScript := do
  let segmentsData := match payload with
    | .dict kvs => lookupD kvs "segments" (.list [])
    | _ => .list []
  let items ← pyIter segmentsData
  pure { segments := dropFold parseSegmentItem items }

/-- One iteration body of `_parse_quick_reference`'s step loop:
`QuickRefStep(step_number=int(item.get("step_number", len(steps) + 1)), …)`,
where `accLen` is the current length of the accumulated steps list. -/
def parseStepItem (accLen : Nat) (item : PyVal) : Except PyErr QuickRefStep := do
  let nRaw ← dictGet item "step_number" (.int (accLen + 1))
  let n ← pyInt nRaw
  let t ← dictGet item "title" (.str "Step")
  let a ← dictGet item "action" (.str "")
  let notes ← dictGet item "notes" .none
  pure { step_number := n, title := pyStr t, action := pyStr a, notes := notes }

/-- The step loop of `_parse_quick_reference`: `try: steps.append(...)
except: continue`, threading the accumulated list so the `len(steps) + 1`
default is position-dependent. -/
def stepFold (items : List PyVal) (acc : List QuickRefStep) : List QuickRefStep :=
  items.foldl
    (fun acc it => match parseStepItem acc.length it with
      | .ok s => acc ++ [s]
      | .error _ => acc) acc

/-- `generator._parse_quick_reference`. -/
def parseQuickReference (payload : PyVal) : Except PyErr QuickReferenceGuide := do
  let stepsData := match payload with
    | .dict kvs => lookupD kvs "steps" (.list [])
    | _ => .list []
  let items ← pyIter stepsData
  let steps := stepFold items []
  pure { steps := steps }

/-!
## Helper lemmas about the embedded Python operations
-/

/-- Values Python can iterate: strings, lists, dicts. -/
def iterOk : PyVal → Bool
  | .str _ | .list _ | .dict _ => true
  | _ => false

/-- Safety of `list(v or [])`: falsy values are rescued by `or []`,
truthy values must be iterable. -/
def guardOk (v : PyVal) : Bool := !truthy v || iterOk v

theorem pyIter_ok {v : PyVal} (h : iterOk v = true) : ∃ xs, pyIter v = .ok xs := by
  cases v with
  | str s => exact ⟨_, rfl⟩
  | list xs => exact ⟨_, rfl⟩
  | dict kvs => exact ⟨_, rfl⟩
  | none => simp [iterOk] at h
  | bool b => simp [iterOk] at h
  | int n => simp [iterOk] at h

theorem listOr_ok {v : PyVal} (h : guardOk v = true) : ∃ xs, listOr v = .ok xs := by
  unfold listOr
  by_cases ht : truthy v = true
  · simp only [guardOk, ht, Bool.not_true, Bool.false_or] at h
    simp only [ht, if_true]
    exact pyIter_ok h
  · simp only [Bool.not_eq_true] at ht
    simp only [ht, Bool.false_eq_true, if_false]
    exact ⟨[], rfl⟩

theorem dropFold_eq_filterMap {α : Type} (f : PyVal → Except PyErr α) (l : List PyVal) :
    dropFold f l = l.filterMap fun x => (f x).toOption := by
  suffices h : ∀ (l : List PyVal) (acc : List α),
      l.foldl (fun acc it => match f it with | .ok x => acc ++ [x] | .error _ => acc) acc
        = acc ++ l.filterMap (fun x => (f x).toOption) by
    simpa [dropFold] using h l []
  intro l
  induction l with
  | nil => intro acc; simp
  | cons x xs ih =>
      intro acc
      cases hx : f x with
      | ok a => simp [List.foldl_cons, hx, ih, Except.toOption, List.filterMap_cons]
      | error e => simp [List.foldl_cons, hx, ih, Except.toOption, List.filterMap_cons]

theorem toOption_eq_none_of_not_ok {ε α : Type} {e : Except ε α}
    (h : isOkE e = false) : e.toOption = Option.none := by
  cases e with
  | ok a => simp [isOkE] at h
  | error x => rfl

theorem filterMap_length_of_all_ok {α : Type} (f : PyVal → Except PyErr α)
    (l : List PyVal) (h : ∀ x ∈ l, isOkE (f x) = true) :
    (l.filterMap fun x => (f x).toOption).length = l.length := by
  induction l with
  | nil => rfl
  | cons x xs ih =>
      have hx := h x (List.mem_cons_self x xs)
      cases he : f x with
      | ok a =>
          have hstep : (x :: xs).filterMap (fun y => (f y).toOption)
              = a :: xs.filterMap (fun y => (f y).toOption) := by
            rw [List.filterMap_cons, he]; rfl
          rw [hstep, List.length_cons, List.length_cons,
            ih fun y hy => h y (List.mem_cons_of_mem x hy)]
      | error e => rw [he] at hx; simp [isOkE] at hx

/-!
## C2: totality of the artifact parsers

The claim as stated is false: a truthy non-iterable value under
`"sections"` / `"segments"` / `"steps"` (or under the instructor guide's
list-typed front-matter keys) makes the `for` loop / `list(...)` call
raise an uncaught `TypeError`.  The safety predicates below capture
exactly the values the parsers survive.
-/

/-- `_parse_outline` raises iff the `"sections"` value is not iterable. -/
def outlineSafe : PyVal → Bool
  | .dict kvs => iterOk (lookupD kvs "sections" (.list []))
  | _ => true

/-- `_parse_video_script` raises iff the `"segments"` value is not iterable. -/
def videoSafe : PyVal → Bool
  | .dict kvs => iterOk (lookupD kvs "segments" (.list []))
  | _ => true

/-- `_parse_quick_reference` raises iff the `"steps"` value is not iterable. -/
def qrefSafe : PyVal → Bool
  | .dict kvs => iterOk (lookupD kvs "steps" (.list []))
  | _ => true

/-- `_parse_instructor_guide`'s `list(payload.get(k, []) or [])` sites. -/
def instrSafe : PyVal → Bool
  | .dict kvs =>
      guardOk (lookupD kvs "sections" (.list [])) &&
      guardOk (lookupD kvs "learning_objectives" (.list [])) &&
      guardOk (lookupD kvs "required_materials_and_equipment" (.list [])) &&
      guardOk (lookupD kvs "instructor_setup" (.list [])) &&
      guardOk (lookupD kvs "participant_setup" (.list [])) &&
      guardOk (lookupD kvs "handouts" (.list [])) &&
      guardOk (lookupD kvs "class_checklist_before" (.list [])) &&
      guardOk (lookupD kvs "class_checklist_start" (.list [])) &&
      guardOk (lookupD kvs "class_checklist_after" (.list []))
  | _ => true

/-- C2 counterexample: `_parse_outline({"sections": 42}, ...)` raises
`TypeError` (iterating the non-iterable int), so the parser is not a
total function on JSON-like inputs; `_parse_outline` has no `or []`
guard, so even the present-but-falsy `{"sections": null}` raises the
same `TypeError` (`for item in None`). -/
theorem c2_counterexample :
    parseOutline (.dict [("sections", .int 42)]) "Intro to Widgets" "Full Class"
      = .error .typeError ∧
    parseOutline (.dict [("sections", .none)]) "Intro to Widgets" "Full Class"
      = .error .typeError := ⟨rfl, rfl⟩

/-- C2 (amended): each parser returns a fully-formed domain object and
never raises, for every JSON-like input in which (i) the value under
`sections`/`segments`/`steps` is iterable whenever the key is present —
these loops have no `or []` guard, so a present falsy non-iterable such
as `null` raises too — and (ii) the instructor guide's list-typed keys
(its `or []`-guarded `sections` and nine front-matter list fields) are
iterable whenever present and truthy.  Missing keys, wrong-typed scalar
values elsewhere, extra keys, and non-mapping payloads are all handled
without an exception. -/
theorem c2_parsers_total (p : PyVal) (ct cls : String)
    (ho : outlineSafe p = true) (hi : instrSafe p = true)
    (hv : videoSafe p = true) (hq : qrefSafe p = true) :
    isOkE (parseOutline p ct cls) = true ∧
    isOkE (parseInstructorGuide p) = true ∧
    isOkE (parseVideoScript p) = true ∧
    isOkE (parseQuickReference p) = true := by
  refine ⟨?_, ?_, ?_, ?_⟩
  · cases p with
    | dict kvs =>
        obtain ⟨xs, hxs⟩ := pyIter_ok (v := lookupD kvs "sections" (.list [])) ho
        simp [parseOutline, hxs, isOkE]
    | none => rfl
    | bool b => rfl
    | int n => rfl
    | str s => rfl
    | list xs => rfl
  · cases p with
    | dict kvs =>
        simp only [instrSafe, Bool.and_eq_true] at hi
        obtain ⟨⟨⟨⟨⟨⟨⟨⟨h1, h2⟩, h3⟩, h4⟩, h5⟩, h6⟩, h7⟩, h8⟩, h9⟩ := hi
        obtain ⟨x1, e1⟩ := listOr_ok h1
        obtain ⟨x2, e2⟩ := listOr_ok h2
        obtain ⟨x3, e3⟩ := listOr_ok h3
        obtain ⟨x4, e4⟩ := listOr_ok h4
        obtain ⟨x5, e5⟩ := listOr_ok h5
        obtain ⟨x6, e6⟩ := listOr_ok h6
        obtain ⟨x7, e7⟩ := listOr_ok h7
        obtain ⟨x8, e8⟩ := listOr_ok h8
        obtain ⟨x9, e9⟩ := listOr_ok h9
        simp [parseInstructorGuide, e1, e2, e3, e4, e5, e6, e7, e8, e9, isOkE,
          bind, Except.bind, pure, Except.pure]
    | none => rfl
    | bool b => rfl
    | int n => rfl
    | str s => rfl
    | list xs => rfl
  · cases p with
    | dict kvs =>
        obtain ⟨xs, hxs⟩ := pyIter_ok (v := lookupD kvs "segments" (.list [])) hv
        simp [parseVideoScript, hxs, isOkE]
    | none => rfl
    | bool b => rfl
    | int n => rfl
    | str s => rfl
    | list xs => rfl
  · cases p with
    | dict kvs =>
        obtain ⟨xs, hxs⟩ := pyIter_ok (v := lookupD kvs "steps" (.list [])) hq
        simp [parseQuickReference, hxs, isOkE]
    | none => rfl
    | bool b => rfl
    | int n => rfl
    | str s => rfl
    | list xs => rfl

/-- C2 amended-theorem witness at a malformed but list-safe payload
(missing keys, wrong-typed scalars, extra keys). -/
theorem c2_witness :
    isOkE (parseOutline (.dict [("sections", .list [.int 3, .dict [("title", .int 7)]]),
        ("junk", .bool true)]) "T" "C") = true ∧
    isOkE (parseInstructorGuide (.dict [("sections", .list [.int 3, .dict [("title", .int 7)]]),
        ("junk", .bool true)])) = true ∧
    isOkE (parseVideoScript (.dict [("sections", .list [.int 3, .dict [("title", .int 7)]]),
        ("junk", .bool true)])) = true ∧
    isOkE (parseQuickReference (.dict [("sections", .list [.int 3, .dict [("title", .int 7)]]),
        ("junk", .bool true)])) = true :=
  c2_parsers_total
    (.dict [("sections", .list [.int 3, .dict [("title", .int 7)]]), ("junk", .bool true)])
    "T" "C" (by decide) (by decide) (by decide) (by decide)

/-!
## C3: partial-drop isolation in all four nested-item parsers
-/

/-- Whether constructing a `QuickRefStep` from a raw item throws,
independently of the accumulator: it throws exactly when the item is not
a dict (no `.get`) or holds an un-`int`-able `step_number` value; the
absent-key default `len(steps) + 1` always converts. -/
def stepItemBad : PyVal → Bool
  | .dict kvs =>
      match kvs.lookup "step_number" with
      | some v => !(isOkE (pyInt v))
      | Option.none => false
  | _ => true

/-- `stepItemBad` characterises `parseStepItem`'s outcome at every
accumulator length. -/
theorem stepItemBad_spec (item : PyVal) (m : Nat) :
    isOkE (parseStepItem m item) = !stepItemBad item := by
  cases item with
  | dict kvs =>
      cases hlk : kvs.lookup "step_number" with
      | none =>
          simp [parseStepItem, dictGet, lookupD, hlk, stepItemBad, pyInt, isOkE,
            bind, Except.bind, pure, Except.pure]
      | some v =>
          cases hpi : pyInt v with
          | ok n =>
              simp [parseStepItem, dictGet, lookupD, hlk, hpi, stepItemBad, isOkE,
                bind, Except.bind, pure, Except.pure]
          | error e =>
              simp [parseStepItem, dictGet, lookupD, hlk, hpi, stepItemBad, isOkE,
                bind, Except.bind]
  | none => rfl
  | bool b => rfl
  | int n => rfl
  | str s => rfl
  | list xs => rfl

theorem stepFold_append (l1 l2 : List PyVal) (acc : List QuickRefStep) :
    stepFold (l1 ++ l2) acc = stepFold l2 (stepFold l1 acc) := by
  simp [stepFold, List.foldl_append]

/-- A throwing item contributes nothing to the accumulated steps. -/
theorem stepFold_bad {bad : PyVal} (h : stepItemBad bad = true)
    (l : List PyVal) (acc : List QuickRefStep) :
    stepFold (bad :: l) acc = stepFold l acc := by
  have hspec := stepItemBad_spec bad acc.length
  rw [h] at hspec
  cases hc : parseStepItem acc.length bad with
  | ok s => rw [hc] at hspec; simp [isOkE] at hspec
  | error e => simp [stepFold, List.foldl_cons, hc]

/-- Every non-throwing item appends exactly one step. -/
theorem stepFold_length :
    ∀ (l : List PyVal) (acc : List QuickRefStep), (∀ x ∈ l, stepItemBad x = false) →
    (stepFold l acc).length = acc.length + l.length := by
  intro l
  induction l with
  | nil => intro acc _; simp [stepFold]
  | cons x xs ih =>
      intro acc h
      have hx : stepItemBad x = false := h x (List.mem_cons_self x xs)
      have hspec := stepItemBad_spec x acc.length
      rw [hx] at hspec
      simp only [Bool.not_false] at hspec
      cases hc : parseStepItem acc.length x with
      | error e => rw [hc] at hspec; simp [isOkE] at hspec
      | ok s =>
          have hstep : stepFold (x :: xs) acc = stepFold xs (acc ++ [s]) := by
            simp [stepFold, List.foldl_cons, hc]
          rw [hstep, ih (acc ++ [s]) fun y hy => h y (List.mem_cons_of_mem x hy)]
          simp [List.length_append]
          omega

/-- For a payload whose only key is a `sections` list,
`_parse_instructor_guide` succeeds with the dropped-fold sections and
default front matter. -/
theorem parseInstructorGuide_sections (items : List PyVal) :
    parseInstructorGuide (.dict [("sections", .list items)])
      = .ok { sections := dropFold parseInstructorItem items } := by
  cases items with
  | nil => rfl
  | cons x xs => rfl

/-- C3: in each of the four parsers, if exactly one raw item of the
nested list (`sections` of the outline, `sections` of the instructor
guide, `segments`, `steps`) is malformed so that constructing its typed
object throws, while every other item constructs, the parsed artifact
holds exactly N−1 well-formed items in the original relative order, each
the untouched parse of its own raw item: for the three
position-independent constructors the result is the per-item
`filterMap`; for quick-reference steps (whose absent-`step_number`
fallback is position-dependent) the artifact is literally identical to
parsing the list with the malformed item removed, so no surviving step's
values change. -/
theorem c3_partial_drop :
    (∀ (pre post : List PyVal) (bad : PyVal) (ct cls : String),
      isOkE (parseOutlineItem bad) = false →
      (∀ x ∈ pre ++ post, isOkE (parseOutlineItem x) = true) →
      ∃ o, parseOutline (.dict [("sections", .list (pre ++ bad :: post))]) ct cls = .ok o ∧
        o.sections = (pre ++ post).filterMap (fun x => (parseOutlineItem x).toOption) ∧
        o.sections.length = (pre ++ bad :: post).length - 1) ∧
    (∀ (pre post : List PyVal) (bad : PyVal),
      isOkE (parseInstructorItem bad) = false →
      (∀ x ∈ pre ++ post, isOkE (parseInstructorItem x) = true) →
      ∃ g, parseInstructorGuide (.dict [("sections", .list (pre ++ bad :: post))]) = .ok g ∧
        g.sections = (pre ++ post).filterMap (fun x => (parseInstructorItem x).toOption) ∧
        g.sections.length = (pre ++ bad :: post).length - 1) ∧
    (∀ (pre post : List PyVal) (bad : PyVal),
      isOkE (parseSegmentItem bad) = false →
      (∀ x ∈ pre ++ post, isOkE (parseSegmentItem x) = true) →
      ∃ v, parseVideoScript (.dict [("segments", .list (pre ++ bad :: post))]) = .ok v ∧
        v.segments = (pre ++ post).filterMap (fun x => (parseSegmentItem x).toOption) ∧
        v.segments.length = (pre ++ bad :: post).length - 1) ∧
    (∀ (pre post : List PyVal) (bad : PyVal),
      isOkE (parseStepItem pre.length bad) = false →
      (∀ x ∈ pre ++ post, ∀ m, isOkE (parseStepItem m x) = true) →
      ∃ q q', parseQuickReference (.dict [("steps", .list (pre ++ bad :: post))]) = .ok q ∧
        parseQuickReference (.dict [("steps", .list (pre ++ post))]) = .ok q' ∧
        q.steps = q'.steps ∧
        q.steps.length = (pre ++ bad :: post).length - 1) := by
  refine ⟨?_, ?_, ?_, ?_⟩
  · intro pre post bad ct cls hob hog
    have hlen : (pre ++ bad :: post).length - 1 = (pre ++ post).length := by
      simp [List.length_append]
    refine ⟨_, rfl, ?_, ?_⟩
    · show dropFold parseOutlineItem (pre ++ bad :: post) = _
      rw [dropFold_eq_filterMap, List.filterMap_append, List.filterMap_cons,
        toOption_eq_none_of_not_ok hob, List.filterMap_append]
    · show (dropFold parseOutlineItem (pre ++ bad :: post)).length = _
      rw [dropFold_eq_filterMap, List.filterMap_append, List.filterMap_cons,
        toOption_eq_none_of_not_ok hob, hlen, ← List.filterMap_append,
        filterMap_length_of_all_ok _ _ hog]
  · intro pre post bad hib hig
    have hlen : (pre ++ bad :: post).length - 1 = (pre ++ post).length := by
      simp [List.length_append]
    refine ⟨_, parseInstructorGuide_sections (pre ++ bad :: post), ?_, ?_⟩
    · show dropFold parseInstructorItem (pre ++ bad :: post) = _
      rw [dropFold_eq_filterMap, List.filterMap_append, List.filterMap_cons,
        toOption_eq_none_of_not_ok hib, List.filterMap_append]
    · show (dropFold parseInstructorItem (pre ++ bad :: post)).length = _
      rw [dropFold_eq_filterMap, List.filterMap_append, List.filterMap_cons,
        toOption_eq_none_of_not_ok hib, hlen, ← List.filterMap_append,
        filterMap_length_of_all_ok _ _ hig]
  · intro pre post bad hvb hvg
    have hlen : (pre ++ bad :: post).length - 1 = (pre ++ post).length := by
      simp [List.length_append]
    refine ⟨_, rfl, ?_, ?_⟩
    · show dropFold parseSegmentItem (pre ++ bad :: post) = _
      rw [dropFold_eq_filterMap, List.filterMap_append, List.filterMap_cons,
        toOption_eq_none_of_not_ok hvb, List.filterMap_append]
    · show (dropFold parseSegmentItem (pre ++ bad :: post)).length = _
      rw [dropFold_eq_filterMap, List.filterMap_append, List.filterMap_cons,
        toOption_eq_none_of_not_ok hvb, hlen, ← List.filterMap_append,
        filterMap_length_of_all_ok _ _ hvg]
  · intro pre post bad hqb hqg
    have hbad : stepItemBad bad = true := by
      have hspec := stepItemBad_spec bad pre.length
      rw [hqb] at hspec
      cases hb : stepItemBad bad
      · rw [hb] at hspec; simp at hspec
      · rfl
    have hgood : ∀ x ∈ pre ++ post, stepItemBad x = false := by
      intro x hx
      have hspec := stepItemBad_spec x 0
      rw [hqg x hx 0] at hspec
      cases hb : stepItemBad x
      · rfl
      · rw [hb] at hspec; simp at hspec
    have hfold : stepFold (pre ++ bad :: post) [] = stepFold (pre ++ post) [] := by
      rw [stepFold_append pre (bad :: post), stepFold_bad hbad, ← stepFold_append]
    refine ⟨⟨stepFold (pre ++ bad :: post) []⟩, ⟨stepFold (pre ++ post) []⟩,
      rfl, rfl, hfold, ?_⟩
    show (stepFold (pre ++ bad :: post) []).length = _
    rw [hfold, stepFold_length _ _ hgood]
    simp [List.length_append]

/-- C3 witness, exercising all four conjuncts: an outline section dict
malformed only for the outline parser (`objectives: 42`), bare ints for
the instructor/video lists, and a step list `[2, "abc", missing]` whose
middle item's `int("abc")` throws at its position. -/
theorem c3_witness :
    (∃ o, parseOutline (.dict [("sections", .list
        ([.dict [("title", .str "A")]] ++
          .dict [("title", .str "A"), ("objectives", .int 42)] ::
            [.dict [("title", .str "B")]]))]) "T" "C" = .ok o ∧
      o.sections = ([.dict [("title", .str "A")], .dict [("title", .str "B")]] :
          List PyVal).filterMap (fun x => (parseOutlineItem x).toOption) ∧
      o.sections.length = ([.dict [("title", .str "A")]] ++
          .dict [("title", .str "A"), ("objectives", .int 42)] ::
            [.dict [("title", .str "B")]] : List PyVal).length - 1) ∧
    (∃ g, parseInstructorGuide (.dict [("sections", .list
        ([.dict [("title", .str "T1")]] ++ .int 5 :: [.dict [("title", .str "T2")]]))])
        = .ok g ∧
      g.sections = ([.dict [("title", .str "T1")], .dict [("title", .str "T2")]] :
          List PyVal).filterMap (fun x => (parseInstructorItem x).toOption) ∧
      g.sections.length = ([.dict [("title", .str "T1")]] ++ .int 5 ::
          [.dict [("title", .str "T2")]] : List PyVal).length - 1) ∧
    (∃ v, parseVideoScript (.dict [("segments", .list
        ([.dict [("title", .str "S1")]] ++ .int 5 :: [.dict [("title", .str "S2")]]))])
        = .ok v ∧
      v.segments = ([.dict [("title", .str "S1")], .dict [("title", .str "S2")]] :
          List PyVal).filterMap (fun x => (parseSegmentItem x).toOption) ∧
      v.segments.length = ([.dict [("title", .str "S1")]] ++ .int 5 ::
          [.dict [("title", .str "S2")]] : List PyVal).length - 1) ∧
    (∃ q q', parseQuickReference (.dict [("steps", .list
        ([.dict [("step_number", .int 2)]] ++
          .dict [("step_number", .str "abc")] :: [.dict []]))]) = .ok q ∧
      parseQuickReference (.dict [("steps", .list
        ([.dict [("step_number", .int 2)]] ++ [.dict []]))]) = .ok q' ∧
      q.steps = q'.steps ∧
      q.steps.length = ([.dict [("step_number", .int 2)]] ++
          .dict [("step_number", .str "abc")] :: [.dict []] : List PyVal).length - 1) :=
  ⟨c3_partial_drop.1 [.dict [("title", .str "A")]] [.dict [("title", .str "B")]]
      (.dict [("title", .str "A"), ("objectives", .int 42)]) "T" "C"
      (by decide) (by decide),
   c3_partial_drop.2.1 [.dict [("title", .str "T1")]] [.dict [("title", .str "T2")]]
      (.int 5) (by decide) (by decide),
   c3_partial_drop.2.2.1 [.dict [("title", .str "S1")]] [.dict [("title", .str "S2")]]
      (.int 5) (by decide) (by decide),
   c3_partial_drop.2.2.2 [.dict [("step_number", .int 2)]] [.dict []]
      (.dict [("step_number", .str "abc")]) (by decide)
      (by intro x hx m; fin_cases hx <;> rfl)⟩

/-!
## C4: step-number fallback in `_parse_quick_reference`

The claim's `[2, missing, "abc"] ↦ [2, 2, 3]` is false: an unparsable
`step_number` makes `int(...)` raise, so the whole step is dropped by the
surrounding `try/except`, yielding `[2, 2]`.
-/

/-- The raw quick-reference payload with step numbers `[2, missing, "abc"]`. -/
def qrgPayloadC4 : PyVal :=
  .dict [("steps", .list
    [ .dict [("step_number", .int 2), ("title", .str "First")],
      .dict [("title", .str "Second")],
      .dict [("step_number", .str "abc"), ("title", .str "Third")] ])]

/-- C4 counterexample: on raw step numbers `[2, missing, "abc"]` the
parsed `step_number` sequence is `[2, 2]`, not `[2, 2, 3]` — the third
step is dropped entirely instead of renumbered. -/
theorem c4_counterexample :
    (parseQuickReference qrgPayloadC4).map (fun q => q.steps.map (·.step_number))
      = .ok [2, 2] ∧ ([2, 2] : List Int) ≠ [2, 2, 3] := ⟨rfl, by decide⟩

/-- C4 (amended): for a dict step item, `step_number` equals the raw
value converted by `int(...)` when that conversion succeeds; when the key
is absent it falls back to the current length of the accumulated steps
list plus 1; when the raw value is present but unparsable the `int(...)`
exception drops the whole step.  On `[2, missing, "abc"]` the parsed
sequence is therefore `[2, 2]`. -/
theorem c4_step_number (kvs : List (String × PyVal)) (acc : List QuickRefStep) :
    (kvs.lookup "step_number" = Option.none →
      ∃ s, parseStepItem acc.length (.dict kvs) = .ok s ∧
        s.step_number = ((acc.length + 1 : Nat) : Int)) ∧
    (∀ v n, kvs.lookup "step_number" = some v → pyInt v = .ok n →
      ∃ s, parseStepItem acc.length (.dict kvs) = .ok s ∧ s.step_number = n) ∧
    (∀ v e, kvs.lookup "step_number" = some v → pyInt v = .error e →
      parseStepItem acc.length (.dict kvs) = .error e) ∧
    (parseQuickReference qrgPayloadC4).map (fun q => q.steps.map (·.step_number))
      = .ok [2, 2] := by
  refine ⟨?_, ?_, ?_, rfl⟩
  · intro hnone
    refine ⟨⟨((acc.length + 1 : Nat) : Int), pyStr (lookupD kvs "title" (.str "Step")),
      pyStr (lookupD kvs "action" (.str "")), lookupD kvs "notes" .none⟩, ?_, rfl⟩
    simp [parseStepItem, dictGet, lookupD, hnone, pyInt, bind, Except.bind, pure,
      Except.pure]
  · intro v n hsome hok
    refine ⟨⟨n, pyStr (lookupD kvs "title" (.str "Step")),
      pyStr (lookupD kvs "action" (.str "")), lookupD kvs "notes" .none⟩, ?_, rfl⟩
    simp [parseStepItem, dictGet, lookupD, hsome, hok, bind, Except.bind, pure,
      Except.pure]
  · intro v e hsome herr
    simp [parseStepItem, dictGet, lookupD, hsome, herr, bind, Except.bind]

/-- C4 amended-theorem witness: with one step already accumulated and the
key absent, the fallback number is 2. -/
theorem c4_witness :
    ∃ s, parseStepItem ([⟨1, "Step", "", .none⟩] : List QuickRefStep).length (.dict [])
        = .ok s ∧ s.step_number = ((([⟨1, "Step", "", .none⟩] : List QuickRefStep).length
          + 1 : Nat) : Int) :=
  (c4_step_number [] [⟨1, "Step", "", .none⟩]).1 rfl

/-!
## Backend service (`src/backend`)

`backend/models/types.py` pydantic models (strictly typed), the
`backend/services/llm.py` generators with their canned fallbacks, the
`backend/services/pipeline.py` orchestrator and the
`backend/routes/generate.py` route.
-/

namespace Backend

/-- `types.ClassOutlineSection`. -/
structure ClassOutlineSection where
  title : String
  objectives : List String := []
  durationMinutes : Option Int := Option.none
deriving Repr

/-- `types.ClassOutline`. -/
structure ClassOutline where
  title : String
  sections : List ClassOutlineSection := []
deriving Repr

/-- `types.InstructorGuideSection`. -/
structure InstructorGuideSection where
  title : String
  learningObjectives : List String := []
  talkingPoints : List String := []
  suggestedActivities : List String := []
  timingMinutes : Option Int := Option.none
deriving Repr

/-- `types.InstructorGuide`. -/
structure InstructorGuide where
  courseTitle : String
  sections : List InstructorGuideSection := []
deriving Repr

/-- `types.VideoScriptSegment`. -/
structure VideoScriptSegment where
  title : String
  narration : String
  screenDirections : String
  durationSeconds : Option Int := Option.none
deriving Repr

/-- `types.VideoScript`. -/
structure VideoScript where
  courseTitle : String
  segments : List VideoScriptSegment := []
deriving Repr

/-- `types.QuickReferenceStep`. -/
structure QuickReferenceStep where
  stepNumber : Int
  title : String
  action : String
  notes : Option String := Option.none
deriving Repr

/-- `types.QuickReferenceGuide`. -/
structure QuickReferenceGuide where
  courseTitle : String
  steps : List QuickReferenceStep := []
deriving Repr

/-- `types.GenerateRequest`. -/
structure GenerateRequest where
  extractedText : String
  courseTitle : String
  classType : String
  openaiApiKey : Option String := Option.none
deriving Repr

/-- `types.GenerateResponse`: the four artifacts, all required fields. -/
structure GenerateResponse where
  classOutline : ClassOutline
  instructorGuide : InstructorGuide
  videoScript : VideoScript
  quickReferenceGuide : QuickReferenceGuide
deriving Repr

/-!
### pydantic `parse_obj` (external library, modelled)

Modelled from the spec: pydantic's `Model.parse_obj` validates a mapping
into the typed model or raises.  It is modelled as a strict structural
validator (exact field types, required fields present, defaults for
absent optional fields).  pydantic v1's numeric-to-string coercions are
not reproduced; every claim below is insensitive to the exact acceptance
set because both the `.ok` and `.error` outcome flow through the same
caller branches.
-/

/-- Required pydantic field: absent means a validation error. -/
def reqField (kvs : List (String × PyVal)) (k : String) : Except PyErr PyVal :=
  match kvs.lookup k with
  | some v => .ok v
  | Option.none => .error .valueError

/-- Validate a `str` field. -/
def vStr : PyVal → Except PyErr String
  | .str s => .ok s
  | _ => .error .valueError

/-- Validate an `Optional[int]` field. -/
def vOptInt : PyVal → Except PyErr (Option Int)
  | .none => .ok Option.none
  | .int n => .ok (some n)
  | _ => .error .valueError

/-- Validate an `Optional[str]` field. -/
def vOptStr : PyVal → Except PyErr (Option String)
  | .none => .ok Option.none
  | .str s => .ok (some s)
  | _ => .error .valueError

/-- Validate an `int` field. -/
def vInt : PyVal → Except PyErr Int
  | .int n => .ok n
  | _ => .error .valueError

/-- Validate a `List[str]` field. -/
def vListStr : PyVal → Except PyErr (List String)
  | .list xs => xs.mapM vStr
  | _ => .error .valueError

/-- Validate a list-of-models field. -/
def vListOf {α : Type} (f : PyVal → Except PyErr α) : PyVal → Except PyErr (List α)
  | .list xs => xs.mapM f
  | _ => .error .valueError

/-- `ClassOutlineSection` validation. -/
def parse_obj_outline_section (v : PyVal) : Except PyErr ClassOutlineSection :=
  match v with
  | .dict kvs => do
      let title ← vStr (← reqField kvs "title")
      let objectives ← vListStr (lookupD kvs "objectives" (.list []))
      let dm ← vOptInt (lookupD kvs "durationMinutes" .none)
      pure { title := title, objectives := objectives, durationMinutes := dm }
  | _ => .error .valueError

/-- `ClassOutline.parse_obj`. -/
def parse_obj_outline (v : PyVal) : Except PyErr ClassOutline :=
  match v with
  | .dict kvs => do
      let title ← vStr (← reqField kvs "title")
      let sections ← vListOf parse_obj_outline_section (lookupD kvs "sections" (.list []))
      pure { title := title, sections := sections }
  | _ => .error .valueError

/-- `InstructorGuideSection` validation. -/
def parse_obj_instructor_section (v : PyVal) : Except PyErr InstructorGuideSection :=
  match v with
  | .dict kvs => do
      let title ← vStr (← reqField kvs "title")
      let lo ← vListStr (lookupD kvs "learningObjectives" (.list []))
      let tp ← vListStr (lookupD kvs "talkingPoints" (.list []))
      let sa ← vListStr (lookupD kvs "suggestedActivities" (.list []))
      let tm ← vOptInt (lookupD kvs "timingMinutes" .none)
      pure { title := title, learningObjectives := lo, talkingPoints := tp,
             suggestedActivities := sa, timingMinutes := tm }
  | _ => .error .valueError

/-- `InstructorGuide.parse_obj`. -/
def parse_obj_instructor (v : PyVal) : Except PyErr InstructorGuide :=
  match v with
  | .dict kvs => do
      let ct ← vStr (← reqField kvs "courseTitle")
      let sections ← vListOf parse_obj_instructor_section (lookupD kvs "sections" (.list []))
      pure { courseTitle := ct, sections := sections }
  | _ => .error .valueError

/-- `VideoScriptSegment` validation. -/
def parse_obj_video_segment (v : PyVal) : Except PyErr VideoScriptSegment :=
  match v with
  | .dict kvs => do
      let title ← vStr (← reqField kvs "title")
      let narr ← vStr (← reqField kvs "narration")
      let sd ← vStr (← reqField kvs "screenDirections")
      let ds ← vOptInt (lookupD kvs "durationSeconds" .none)
      pure { title := title, narration := narr, screenDirections := sd,
             durationSeconds := ds }
  | _ => .error .valueError

/-- `VideoScript.parse_obj`. -/
def parse_obj_video (v : PyVal) : Except PyErr VideoScript :=
  match v with
  | .dict kvs => do
      let ct ← vStr (← reqField kvs "courseTitle")
      let segments ← vListOf parse_obj_video_segment (lookupD kvs "segments" (.list []))
      pure { courseTitle := ct, segments := segments }
  | _ => .error .valueError

/-- `QuickReferenceStep` validation. -/
def parse_obj_qrg_step (v : PyVal) : Except PyErr QuickReferenceStep :=
  match v with
  | .dict kvs => do
      let sn ← vInt (← reqField kvs "stepNumber")
      let title ← vStr (← reqField kvs "title")
      let action ← vStr (← reqField kvs "action")
      let notes ← vOptStr (lookupD kvs "notes" .none)
      pure { stepNumber := sn, title := title, action := action, notes := notes }
  | _ => .error .valueError

/-- `QuickReferenceGuide.parse_obj`. -/
def parse_obj_qrg (v : PyVal) : Except PyErr QuickReferenceGuide :=
  match v with
  | .dict kvs => do
      let ct ← vStr (← reqField kvs "courseTitle")
      let steps ← vListOf parse_obj_qrg_step (lookupD kvs "steps" (.list []))
      pure { courseTitle := ct, steps := steps }
  | _ => .error .valueError

/-!
### `llm.py` fallbacks and generators
-/

/-- `llm._outline_fallback`. -/
def outline_fallback (course_title : String) : ClassOutline :=
  { title := course_title,
    sections :=
      [ { title := "Introduction",
          objectives := ["Understand goals", "Set expectations"],
          durationMinutes := some 10 },
        { title := "Core Concepts",
          objectives := ["Learn the basics", "Review examples"],
          durationMinutes := some 30 } ] }

/-- `llm._instructor_fallback`. -/
def instructor_fallback (course_title : String) : InstructorGuide :=
  { courseTitle := course_title,
    sections :=
      [ { title := "Kickoff",
          learningObjectives := ["Establish rapport", "Preview agenda"],
          talkingPoints := ["Welcome participants", "Share outcomes"],
          suggestedActivities := ["Icebreaker question"],
          timingMinutes := some 5 },
        { title := "Hands-on Walkthrough",
          learningObjectives := ["Practice workflow"],
          talkingPoints := ["Demonstrate key steps", "Highlight pitfalls"],
          suggestedActivities := ["Live demo", "Group exercise"],
          timingMinutes := some 25 } ] }

/-- `llm._video_fallback`. -/
def video_fallback (course_title : String) : VideoScript :=
  { courseTitle := course_title,
    segments :=
      [ { title := "Scene 1 - Overview",
          narration := "Welcome to the training. In this lesson, we'll cover the essentials.",
          screenDirections := "Show title slide, slow zoom, then fade to dashboard.",
          durationSeconds := some 45 },
        { title := "Scene 2 - Doing the Work",
          narration := "Click on 'Create' to start a new project and fill in the details.",
          screenDirections := "Capture cursor clicking Create, highlight form fields, zoom on Save button.",
          durationSeconds := some 75 } ] }

/-- `llm._qrg_fallback`. -/
def qrg_fallback (course_title : String) : QuickReferenceGuide :=
  { courseTitle := course_title,
    steps :=
      [ { stepNumber := 1, title := "Set Up",
          action := "Open the application and sign in with your credentials.",
          notes := some "Use SSO when available." },
        { stepNumber := 2, title := "Create Item",
          action := "Click 'Create', enter required fields, and press Save.",
          notes := some "Fields marked * are mandatory." } ] }

/-- Python `a or b` on optional strings (`api_key or os.getenv(...)`):
falsy (`None` or `""`) left operand falls through. -/
def orStr : Option String → Option String → Option String
  | some s, b => if s.isEmpty then b else some s
  | Option.none, b => b

/-- An OpenAI client constructed with an explicit key. -/
structure OpenAIClient where
  apiKey : String
deriving Repr

/-- `llm._get_client(api_key)`: `key = api_key or os.getenv("OPENAI_API_KEY")`,
`None` when the resulting key is falsy, else a fresh client holding the key
(no module-level state is read or written apart from the environment). -/
def get_client (api_key envKey : Option String) : Option OpenAIClient :=
  match orStr api_key envKey with
  | some k => if k.isEmpty then Option.none else some ⟨k⟩
  | Option.none => Option.none

/-- Outcome of one remote chat-completions call (the external LLM):
transport/auth/rate-limit failure, a reply `json.loads` rejects, or a
parsed JSON reply. -/
inductive LLMOutcome where
  | transportError
  | invalidJSONReply
  | reply (v : PyVal)

/-- The fallible body of `_structured_completion`'s `try` block. -/
def rawCompletion (_c : OpenAIClient) (o : LLMOutcome) : Except PyErr PyVal :=
  match o with
  | .transportError => .error .apiError
  | .invalidJSONReply => .error .jsonDecodeError
  | .reply v => .ok v

/-- `llm._structured_completion`: `None` without a client; any exception
from the call or `json.loads` is caught and becomes `None` ("fail soft").
Also reports the key of the client it used (observable effect for C9). -/
def structured_completion (api_key envKey : Option String) (o : LLMOutcome) :
    Option PyVal × Option String :=
  match get_client api_key envKey with
  | Option.none => (Option.none, Option.none)
  | some c =>
      match rawCompletion c o with
      | .ok v => (some v, some c.apiKey)
      | .error _ => (Option.none, some c.apiKey)

/-- `llm.generate_class_outline`: parse the completion when truthy, fall
back on `None`, falsy payload, or a `parse_obj` exception (`except: pass`).
`class_type` is a runtime value that only feeds the prompt (abstracted by
the outcome oracle).  Returns the artifact and the key used. -/
def generate_class_outline (_text course_title : String) (_class_type : PyVal)
    (api_key envKey : Option String) (o : LLMOutcome) :
    Except PyErr (ClassOutline × Option String) :=
  let (parsed, key) := structured_completion api_key envKey o
  match parsed with
  | some p =>
      if truthy p then
        match parse_obj_outline p with
        | .ok outl => .ok (outl, key)
        | .error _ => .ok (outline_fallback course_title, key)
      else .ok (outline_fallback course_title, key)
  | Option.none => .ok (outline_fallback course_title, key)

/-- `llm.generate_instructor_guide`. -/
def generate_instructor_guide (_text course_title : String) (_class_type : PyVal)
    (api_key envKey : Option String) (o : LLMOutcome) :
    Except PyErr (InstructorGuide × Option String) :=
  let (parsed, key) := structured_completion api_key envKey o
  match parsed with
  | some p =>
      if truthy p then
        match parse_obj_instructor p with
        | .ok g => .ok (g, key)
        | .error _ => .ok (instructor_fallback course_title, key)
      else .ok (instructor_fallback course_title, key)
  | Option.none => .ok (instructor_fallback course_title, key)

/-- `llm.generate_video_script`. -/
def generate_video_script (_text course_title : String) (_class_type : PyVal)
    (api_key envKey : Option String) (o : LLMOutcome) :
    Except PyErr (VideoScript × Option String) :=
  let (parsed, key) := structured_completion api_key envKey o
  match parsed with
  | some p =>
      if truthy p then
        match parse_obj_video p with
        | .ok s => .ok (s, key)
        | .error _ => .ok (video_fallback course_title, key)
      else .ok (video_fallback course_title, key)
  | Option.none => .ok (video_fallback course_title, key)

/-- `llm.generate_quick_reference`. -/
def generate_quick_reference (_text course_title : String) (_class_type : PyVal)
    (api_key envKey : Option String) (o : LLMOutcome) :
    Except PyErr (QuickReferenceGuide × Option String) :=
  let (parsed, key) := structured_completion api_key envKey o
  match parsed with
  | some p =>
      if truthy p then
        match parse_obj_qrg p with
        | .ok g => .ok (g, key)
        | .error _ => .ok (qrg_fallback course_title, key)
      else .ok (qrg_fallback course_title, key)
  | Option.none => .ok (qrg_fallback course_title, key)

/-- `pipeline.build_artifacts`: the four generator calls in source order,
each receiving `api_key` in its keyword `api_key` position; collects the
keys each call used. -/
def build_artifacts (extracted_text course_title class_type : String)
    (api_key envKey : Option String) (o1 o2 o3 o4 : LLMOutcome) :
    Except PyErr (GenerateResponse × List (Option String)) := do
  let (outline, k1) ← generate_class_outline extracted_text course_title
    (.str class_type) api_key envKey o1
  let (instructor, k2) ← generate_instructor_guide extracted_text course_title
    (.str class_type) api_key envKey o2
  let (video, k3) ← generate_video_script extracted_text course_title
    (.str class_type) api_key envKey o3
  let (qrg, k4) ← generate_quick_reference extracted_text course_title
    (.str class_type) api_key envKey o4
  pure ({ classOutline := outline, instructorGuide := instructor,
          videoScript := video, quickReferenceGuide := qrg }, [k1, k2, k3, k4])

/-- Python `str(v)` of an `Optional[str]` interpolated as a runtime value. -/
def optPyVal : Option String → PyVal
  | some s => .str s
  | Option.none => .none

/-- `routes/generate.py generate_package`: NOTE the source passes
`payload.openaiApiKey` as the third positional argument, which is the
generators' `class_type` parameter; their `api_key` parameter keeps its
default `None`.  The surrounding `try/except` maps an escaped exception
to a 500 reply. -/
inductive RouteReply where
  | success (r : GenerateResponse) (keys : List (Option String))
  | serverError (e : PyErr)

/-- The route body. -/
def generate_package (payload : GenerateRequest) (envKey : Option String)
    (o1 o2 o3 o4 : LLMOutcome) : RouteReply :=
  let body : Except PyErr (GenerateResponse × List (Option String)) := do
    let (outline, k1) ← generate_class_outline payload.extractedText payload.courseTitle
      (optPyVal payload.openaiApiKey) Option.none envKey o1
    let (instructor, k2) ← generate_instructor_guide payload.extractedText payload.courseTitle
      (optPyVal payload.openaiApiKey) Option.none envKey o2
    let (video, k3) ← generate_video_script payload.extractedText payload.courseTitle
      (optPyVal payload.openaiApiKey) Option.none envKey o3
    let (qrg, k4) ← generate_quick_reference payload.extractedText payload.courseTitle
      (optPyVal payload.openaiApiKey) Option.none envKey o4
    pure ({ classOutline := outline, instructorGuide := instructor,
            videoScript := video, quickReferenceGuide := qrg }, [k1, k2, k3, k4])
  match body with
  | .ok (r, ks) => .success r ks
  | .error e => .serverError e

/-- The keys the route's four LLM invocations used. -/
def route_keys_used (payload : GenerateRequest) (envKey : Option String)
    (o1 o2 o3 o4 : LLMOutcome) : List (Option String) :=
  match generate_package payload envKey o1 o2 o3 o4 with
  | .success _ ks => ks
  | .serverError _ => []

/-- Every backend generator resolves to `.ok` with the artifact it chose
and the key its client used: no exception escapes the call. -/
theorem generate_class_outline_ok (text ct : String) (ctv : PyVal)
    (apiKey envKey : Option String) (o : LLMOutcome) :
    ∃ a, generate_class_outline text ct ctv apiKey envKey o
      = .ok (a, (structured_completion apiKey envKey o).2) := by
  unfold generate_class_outline
  rcases hsc : structured_completion apiKey envKey o with ⟨parsed, key⟩
  cases parsed with
  | none => exact ⟨_, rfl⟩
  | some p =>
      by_cases ht : truthy p = true
      · cases hpo : parse_obj_outline p with
        | ok a => exact ⟨a, by simp [ht, hpo]⟩
        | error e => exact ⟨outline_fallback ct, by simp [ht, hpo]⟩
      · exact ⟨outline_fallback ct, by simp [ht]⟩

/-- Same for the instructor-guide generator. -/
theorem generate_instructor_guide_ok (text ct : String) (ctv : PyVal)
    (apiKey envKey : Option String) (o : LLMOutcome) :
    ∃ a, generate_instructor_guide text ct ctv apiKey envKey o
      = .ok (a, (structured_completion apiKey envKey o).2) := by
  unfold generate_instructor_guide
  rcases hsc : structured_completion apiKey envKey o with ⟨parsed, key⟩
  cases parsed with
  | none => exact ⟨_, rfl⟩
  | some p =>
      by_cases ht : truthy p = true
      · cases hpo : parse_obj_instructor p with
        | ok a => exact ⟨a, by simp [ht, hpo]⟩
        | error e => exact ⟨instructor_fallback ct, by simp [ht, hpo]⟩
      · exact ⟨instructor_fallback ct, by simp [ht]⟩

/-- Same for the video-script generator. -/
theorem generate_video_script_ok (text ct : String) (ctv : PyVal)
    (apiKey envKey : Option String) (o : LLMOutcome) :
    ∃ a, generate_video_script text ct ctv apiKey envKey o
      = .ok (a, (structured_completion apiKey envKey o).2) := by
  unfold generate_video_script
  rcases hsc : structured_completion apiKey envKey o with ⟨parsed, key⟩
  cases parsed with
  | none => exact ⟨_, rfl⟩
  | some p =>
      by_cases ht : truthy p = true
      · cases hpo : parse_obj_video p with
        | ok a => exact ⟨a, by simp [ht, hpo]⟩
        | error e => exact ⟨video_fallback ct, by simp [ht, hpo]⟩
      · exact ⟨video_fallback ct, by simp [ht]⟩

/-- Same for the quick-reference generator. -/
theorem generate_quick_reference_ok (text ct : String) (ctv : PyVal)
    (apiKey envKey : Option String) (o : LLMOutcome) :
    ∃ a, generate_quick_reference text ct ctv apiKey envKey o
      = .ok (a, (structured_completion apiKey envKey o).2) := by
  unfold generate_quick_reference
  rcases hsc : structured_completion apiKey envKey o with ⟨parsed, key⟩
  cases parsed with
  | none => exact ⟨_, rfl⟩
  | some p =>
      by_cases ht : truthy p = true
      · cases hpo : parse_obj_qrg p with
        | ok a => exact ⟨a, by simp [ht, hpo]⟩
        | error e => exact ⟨qrg_fallback ct, by simp [ht, hpo]⟩
      · exact ⟨qrg_fallback ct, by simp [ht]⟩

/-- The key component of `_structured_completion` is exactly the key of
the client `_get_client` built, whatever the remote call does. -/
theorem structured_completion_key (apiKey envKey : Option String) (o : LLMOutcome) :
    (structured_completion apiKey envKey o).2
      = (match get_client apiKey envKey with
         | some c => some c.apiKey
         | Option.none => Option.none) := by
  cases hgc : get_client apiKey envKey with
  | none => simp [structured_completion, hgc]
  | some c => cases o <;> simp [structured_completion, hgc, rawCompletion]

/-!
### C1: orchestrator completeness
-/

/-- C1: for every input text, title and class type, and for every
combination of per-call outcomes — missing credentials (`api_key` and
environment key both absent/empty), transport error, invalid JSON reply,
or a schema-parse failure on the reply — `build_artifacts` returns a
`GenerateResponse` in which all four artifacts are present (the record's
four required fields), with no exception escaping. -/
theorem c1_build_artifacts_complete (text title ct : String)
    (apiKey envKey : Option String) (o1 o2 o3 o4 : LLMOutcome) :
    ∃ resp keys,
      build_artifacts text title ct apiKey envKey o1 o2 o3 o4 = .ok (resp, keys) := by
  obtain ⟨a1, h1⟩ := generate_class_outline_ok text title (.str ct) apiKey envKey o1
  obtain ⟨a2, h2⟩ := generate_instructor_guide_ok text title (.str ct) apiKey envKey o2
  obtain ⟨a3, h3⟩ := generate_video_script_ok text title (.str ct) apiKey envKey o3
  obtain ⟨a4, h4⟩ := generate_quick_reference_ok text title (.str ct) apiKey envKey o4
  refine ⟨{ classOutline := a1, instructorGuide := a2, videoScript := a3,
            quickReferenceGuide := a4 },
    [(structured_completion apiKey envKey o1).2, (structured_completion apiKey envKey o2).2,
     (structured_completion apiKey envKey o3).2, (structured_completion apiKey envKey o4).2],
    ?_⟩
  simp only [build_artifacts, h1, h2, h3, h4, bind, Except.bind, pure, Except.pure]

/-!
### C9: the per-request API key never reaches the LLM calls

`routes/generate.py` calls
`llm.generate_class_outline(payload.extractedText, payload.courseTitle,
payload.openaiApiKey)`: the key lands in the generators' third positional
parameter `class_type`, and their `api_key` parameter keeps its default
`None` — so `_get_client(None)` always resolves the process-wide
environment key, contradicting both the spec and the request model's own
field description ("Optional per-request OpenAI API key").
-/

/-- The concrete failing request: a per-request key is supplied while a
process-wide key is configured. -/
def req9 : GenerateRequest :=
  { extractedText := "Widgets are small mechanical parts...",
    courseTitle := "Intro to Widgets", classType := "Full Class",
    openaiApiKey := some "sk-user" }

/-- The runtime value the route passes into the generators' `class_type`
slot. -/
def route_class_type_arg (payload : GenerateRequest) : PyVal :=
  optPyVal payload.openaiApiKey

/-- C9 (code bug): with `openaiApiKey = "sk-user"` on the request and
`OPENAI_API_KEY = "sk-env"` in the environment, all four LLM invocations
of the route use `"sk-env"`, whatever the remote calls do, and the
supplied key is instead forwarded as the `class_type` prompt parameter. -/
theorem c9_per_request_key_not_used (o1 o2 o3 o4 : LLMOutcome) :
    route_keys_used req9 (some "sk-env") o1 o2 o3 o4
      = [some "sk-env", some "sk-env", some "sk-env", some "sk-env"] ∧
    route_class_type_arg req9 = PyVal.str "sk-user" ∧
    (some "sk-env" : Option String) ≠ some "sk-user" := by
  refine ⟨?_, rfl, by decide⟩
  have hk : ∀ o : LLMOutcome,
      (structured_completion Option.none (some "sk-env") o).2 = some "sk-env" := by
    intro o
    rw [structured_completion_key]
    rfl
  obtain ⟨a1, h1⟩ := generate_class_outline_ok req9.extractedText req9.courseTitle
    (route_class_type_arg req9) Option.none (some "sk-env") o1
  obtain ⟨a2, h2⟩ := generate_instructor_guide_ok req9.extractedText req9.courseTitle
    (route_class_type_arg req9) Option.none (some "sk-env") o2
  obtain ⟨a3, h3⟩ := generate_video_script_ok req9.extractedText req9.courseTitle
    (route_class_type_arg req9) Option.none (some "sk-env") o3
  obtain ⟨a4, h4⟩ := generate_quick_reference_ok req9.extractedText req9.courseTitle
    (route_class_type_arg req9) Option.none (some "sk-env") o4
  rw [hk o1] at h1
  rw [hk o2] at h2
  rw [hk o3] at h3
  rw [hk o4] at h4
  simp only [route_keys_used, generate_package, route_class_type_arg] at *
  simp only [req9] at h1 h2 h3 h4 ⊢
  simp only [h1, h2, h3, h4, bind, Except.bind, pure, Except.pure]

end Backend

/-!
## Streamlit-side generators (`src/generator/generator.py`)

`_call_json_response` raises `MissingOpenAIKeyError` from `get_client()`
when no key is configured and re-raises any API/JSON failure; every
`generate_*` wraps call + parse in one `try` and answers a bare
empty-sequence artifact on any exception.  Prompt construction
(`_build_combined_source_text`, `textwrap.shorten`) is total string work
that only feeds the LLM call, which the outcome oracle abstracts, so it
is not modelled.
-/

namespace Generator

/-- Outcome of one `_call_json_response` remote interaction once a client
exists. -/
inductive GLLMOutcome where
  | apiFailure
  | badJSON
  | reply (v : PyVal)

/-- `generator._call_json_response`: `get_client()` raises
`MissingOpenAIKeyError` without a key; API errors and `json.loads`
failures are re-raised after logging. -/
def call_json_response (hasKey : Bool) (o : GLLMOutcome) : Except PyErr PyVal :=
  if hasKey then
    match o with
    | .apiFailure => .error .apiError
    | .badJSON => .error .jsonDecodeError
    | .reply v => .ok v
  else .error .missingOpenAIKey

/-- `generator.generate_class_outline`: on any exception from the call or
the parse, returns `ClassOutline(title=f"{course_title} ({class_type})",
sections=[])`. -/
def generate_class_outline (_full_text course_title class_type : String)
    (hasKey : Bool) (o : GLLMOutcome) : ClassOutline :=
  match call_json_response hasKey o with
  | .ok payload =>
      match parseOutline payload course_title class_type with
      | .ok outl => outl
      | .error _ =>
          { title := .str (course_title ++ " (" ++ class_type ++ ")"), sections := [] }
  | .error _ =>
      { title := .str (course_title ++ " (" ++ class_type ++ ")"), sections := [] }

/-- `generator.generate_instructor_guide`: failure answer is a default
`InstructorGuide()`. -/
def generate_instructor_guide (_full_text _course_title _class_type : String)
    (hasKey : Bool) (o : GLLMOutcome) : InstructorGuide :=
  match call_json_response hasKey o with
  | .ok payload =>
      match parseInstructorGuide payload with
      | .ok g => g
      | .error _ => {}
  | .error _ => {}

/-- `generator.generate_video_script`: failure answer is
`VideoScript(segments=[])`. -/
def generate_video_script (_full_text _course_title _class_type : String)
    (hasKey : Bool) (o : GLLMOutcome) : VideoScript :=
  match call_json_response hasKey o with
  | .ok payload =>
      match parseVideoScript payload with
      | .ok s => s
      | .error _ => { segments := [] }
  | .error _ => { segments := [] }

/-- `generator.generate_quick_reference`: failure answer is
`QuickReferenceGuide(steps=[])`. -/
def generate_quick_reference (_full_text _course_title _class_type : String)
    (hasKey : Bool) (o : GLLMOutcome) : QuickReferenceGuide :=
  match call_json_response hasKey o with
  | .ok payload =>
      match parseQuickReference payload with
      | .ok q => q
      | .error _ => { steps := [] }
  | .error _ => { steps := [] }

end Generator

/-!
### C5: fallback artifact shape
-/

/-- C5 counterexample: the artifact values the streamlit-side generators
fall back to when generation fails (here: missing OpenAI key) have empty
top-level sequences — the video-script fallback has no segments and no
field reflecting the title at all, the outline fallback has no sections. -/
theorem c5_counterexample :
    (Generator.generate_video_script "source text" "Intro to Widgets" "Full Class"
      false (.reply (.dict []))).segments = [] ∧
    (Generator.generate_class_outline "source text" "Intro to Widgets" "Full Class"
      false (.reply (.dict []))).sections = [] := ⟨rfl, rfl⟩

/-- C5 (amended): the backend fallback providers (`_outline_fallback`,
`_instructor_fallback`, `_video_fallback`, `_qrg_fallback`) do satisfy
the claim for every course title: non-empty top-level sequences and the
given title reflected in the artifact's title field.  (The streamlit-side
generators' failure values, by the counterexample, do not.) -/
theorem c5_backend_fallbacks (course_title : String) :
    (Backend.outline_fallback course_title).sections ≠ [] ∧
    (Backend.outline_fallback course_title).title = course_title ∧
    (Backend.instructor_fallback course_title).sections ≠ [] ∧
    (Backend.instructor_fallback course_title).courseTitle = course_title ∧
    (Backend.video_fallback course_title).segments ≠ [] ∧
    (Backend.video_fallback course_title).courseTitle = course_title ∧
    (Backend.qrg_fallback course_title).steps ≠ [] ∧
    (Backend.qrg_fallback course_title).courseTitle = course_title := by
  refine ⟨?_, rfl, ?_, rfl, ?_, rfl, ?_, rfl⟩ <;>
    simp [Backend.outline_fallback, Backend.instructor_fallback,
      Backend.video_fallback, Backend.qrg_fallback]

/-!
## C6: the source aggregator (`src/app.py`, generation flow)

Python `str` is modelled as `List Char` here so that `"".join` /
`.strip()` reasoning stays elementary.
-/

/-- `"[Audio Transcript]\n"`. -/
def audioMarker : List Char := "[Audio Transcript]\n".data

/-- `"=== Additional notes from instructor (handwritten) ===\n"`. -/
def notesMarker : List Char :=
  "=== Additional notes from instructor (handwritten) ===\n".data

/-- The canonical fallback sentence used when no source text exists. -/
def fallbackSentence : List Char :=
  ("No usable source text was extracted. " ++
   "Create a generic but reasonable training package based only on the course title and class type.").data

/-- `"\n\n".join(parts)`. -/
def joinBlank : List (List Char) → List Char
  | [] => []
  | [x] => x
  | x :: xs => x ++ '\n' :: '\n' :: joinBlank xs

/-- The aggregation block of `app.py`'s generation flow: collect truthy
document text and marker-prefixed transcript, join with blank lines and
strip; strip the session notes and append them behind the notes marker;
substitute the fallback sentence when everything is empty. -/
def aggregate (document_text transcript_text notes_raw : List Char) : List Char :=
  let parts := (if document_text.isEmpty then [] else [document_text]) ++
               (if transcript_text.isEmpty then []
                else [audioMarker ++ transcript_text])
  let full := stripL (joinBlank parts)
  let notes := stripL notes_raw
  let full2 := if notes.isEmpty then full
               else if full.isEmpty then notesMarker ++ notes
               else full ++ '\n' :: '\n' :: (notesMarker ++ notes)
  if full2.isEmpty then fallbackSentence else full2

/-- The claim's formula, verbatim: the non-empty inputs in fixed order
(document, marker-prefixed transcript, marker-prefixed notes), joined by
blank lines, the whole result stripped; the fallback sentence exactly
when all three inputs are empty. -/
def aggregateSpec (d t n : List Char) : List Char :=
  if d.isEmpty && t.isEmpty && n.isEmpty then fallbackSentence
  else stripL (joinBlank ((if d.isEmpty then [] else [d]) ++
    (if t.isEmpty then [] else [audioMarker ++ t]) ++
    (if n.isEmpty then [] else [notesMarker ++ n])))

/-- No whitespace at the head. -/
def headOk (l : List Char) : Prop := ∀ c, l.head? = some c → wsChar c = false

/-- No whitespace at the end. -/
def lastOk (l : List Char) : Prop := ∀ c, l.getLast? = some c → wsChar c = false

theorem dropWhile_eq_self_of_headOk {l : List Char} (h : headOk l) :
    l.dropWhile wsChar = l := by
  cases l with
  | nil => rfl
  | cons a t =>
      have := h a (by simp)
      simp [List.dropWhile_cons, this]

theorem stripL_eq_self {l : List Char} (h1 : headOk l) (h2 : lastOk l) :
    stripL l = l := by
  unfold stripL
  rw [dropWhile_eq_self_of_headOk h1]
  rw [dropWhile_eq_self_of_headOk (l := l.reverse) ?_, List.reverse_reverse]
  intro c hc
  exact h2 c (by rwa [List.head?_reverse] at hc)

theorem headOk_of_dropWhile_eq {l : List Char} (h : l.dropWhile wsChar = l) :
    headOk l := by
  intro c hc
  cases l with
  | nil => simp at hc
  | cons a t =>
      have hac : a = c := by simpa using hc
      subst hac
      by_contra hw
      rw [Bool.not_eq_false] at hw
      rw [List.dropWhile_cons, if_pos hw] at h
      have := List.Sublist.length_le (List.dropWhile_sublist (p := wsChar) (l := t))
      rw [h] at this
      simp at this

theorem dropWhile_eq_self_of_stripL {l : List Char} (h : stripL l = l) :
    l.dropWhile wsChar = l := by
  apply (List.dropWhile_sublist (p := wsChar) (l := l)).eq_of_length
  have hlen : (stripL l).length = l.length := by rw [h]
  have h1 : (l.dropWhile wsChar).length ≤ l.length :=
    (List.dropWhile_sublist (p := wsChar) (l := l)).length_le
  have h2 : ((l.dropWhile wsChar).reverse.dropWhile wsChar).length
      ≤ (l.dropWhile wsChar).length := by
    simpa using
      (List.dropWhile_sublist (p := wsChar) (l := (l.dropWhile wsChar).reverse)).length_le
  have h3 : (stripL l).length
      = ((l.dropWhile wsChar).reverse.dropWhile wsChar).length := by
    simp [stripL]
  omega

theorem headOk_of_stripL {l : List Char} (h : stripL l = l) : headOk l :=
  headOk_of_dropWhile_eq (dropWhile_eq_self_of_stripL h)

theorem lastOk_of_stripL {l : List Char} (h : stripL l = l) : lastOk l := by
  have hd : l.dropWhile wsChar = l := dropWhile_eq_self_of_stripL h
  have hrev : l.reverse.dropWhile wsChar = l.reverse := by
    have h2 : (l.reverse.dropWhile wsChar).reverse = l := by
      calc (l.reverse.dropWhile wsChar).reverse
          = ((l.dropWhile wsChar).reverse.dropWhile wsChar).reverse := by rw [hd]
        _ = stripL l := rfl
        _ = l := h
    calc l.reverse.dropWhile wsChar
        = (l.reverse.dropWhile wsChar).reverse.reverse := by rw [List.reverse_reverse]
      _ = l.reverse := by rw [h2]
  intro c hc
  exact headOk_of_dropWhile_eq hrev c (by rwa [List.head?_reverse])

theorem headOk_append_left {a b : List Char} (ha : headOk a) (hne : a ≠ []) :
    headOk (a ++ b) := by
  intro c hc
  cases a with
  | nil => exact absurd rfl hne
  | cons x t =>
      have hxc : x = c := by simpa using hc
      exact hxc ▸ ha x (by simp)

theorem lastOk_append_right {a b : List Char} (hb : lastOk b) (hne : b ≠ []) :
    lastOk (a ++ b) := by
  intro c hc
  apply hb c
  rwa [List.getLast?_append_of_ne_nil a hne] at hc

/-- C6 counterexample: for a whitespace-only document (and no transcript
or notes) the code substitutes the fallback sentence although not all
three inputs are empty, while the claim's formula yields the empty
string; the two disagree. -/
theorem c6_counterexample :
    aggregate [' '] [] [] = fallbackSentence ∧
    aggregateSpec [' '] [] [] = [] ∧
    aggregate [' '] [] [] ≠ aggregateSpec [' '] [] [] := by
  refine ⟨rfl, rfl, ?_⟩
  intro h
  have : fallbackSentence = ([] : List Char) := h
  simp [fallbackSentence] at this

/-- A nonempty left factor keeps an append nonempty. -/
theorem append_ne_nil_left {a : List Char} (b : List Char) (ha : a ≠ []) :
    a ++ b ≠ [] := by
  cases a with
  | nil => exact absurd rfl ha
  | cons x xs => simp

/-- `strip` of the empty string. -/
theorem stripL_nil : stripL [] = [] := rfl

/-- Boolean emptiness from list non-emptiness. -/
theorem isEmpty_false_of_ne {l : List Char} (h : l ≠ []) : l.isEmpty = false := by
  cases l with
  | nil => exact absurd rfl h
  | cons a t => rfl

/-- Two leading characters keep a whitespace-free tail's end intact. -/
theorem lastOk_cons2 {x : List Char} (c1 c2 : Char) (hx : lastOk x) (hne : x ≠ []) :
    lastOk (c1 :: c2 :: x) :=
  lastOk_append_right (a := [c1, c2]) hx hne

/-- C6 (amended): for inputs carrying no leading or trailing whitespace
(`strip`-fixed, which excludes the whitespace-only counterexample), the
aggregated text equals the claim's formula — non-empty inputs
concatenated in fixed order with their literal markers, joined by blank
lines, stripped — with the fallback sentence exactly when all three are
empty; and the aggregate is never empty. -/
theorem c6_aggregate_amended (d t n : List Char)
    (hd : stripL d = d) (ht : stripL t = t) (hn : stripL n = n) :
    aggregate d t n = aggregateSpec d t n ∧ aggregate d t n ≠ [] := by
  have hAhead : headOk audioMarker := by
    intro c hc
    have hh : audioMarker.head? = some '[' := rfl
    rw [hh] at hc
    have h1 : c = '[' := (Option.some.inj hc).symm
    subst h1; rfl
  have hNhead : headOk notesMarker := by
    intro c hc
    have hh : notesMarker.head? = some '=' := rfl
    rw [hh] at hc
    have h1 : c = '=' := (Option.some.inj hc).symm
    subst h1; rfl
  have hAne : audioMarker ≠ [] := by decide
  have hNne : notesMarker ≠ [] := by decide
  by_cases hD : d = []
  · by_cases hT : t = []
    · by_cases hN : n = []
      · subst hD; subst hT; subst hN
        exact ⟨rfl, by decide⟩
      · -- only notes
        subst hD; subst hT
        have hnE : n.isEmpty = false := isEmpty_false_of_ne hN
        have hsn : stripL (notesMarker ++ n) = notesMarker ++ n :=
          stripL_eq_self (headOk_append_left hNhead hNne)
            (lastOk_append_right (lastOk_of_stripL hn) hN)
        have hL : aggregate [] [] n = notesMarker ++ n := by
          simp [aggregate, List.isEmpty_nil, stripL_nil, hn, hnE, joinBlank,
            isEmpty_false_of_ne (append_ne_nil_left n hNne)]
        have hR : aggregateSpec [] [] n = notesMarker ++ n := by
          simp [aggregateSpec, hnE, joinBlank, hsn]
        rw [hL, hR]
        exact ⟨rfl, append_ne_nil_left n hNne⟩
    · -- transcript present, no document
      have htE : t.isEmpty = false := isEmpty_false_of_ne hT
      have hst : stripL (audioMarker ++ t) = audioMarker ++ t :=
        stripL_eq_self (headOk_append_left hAhead hAne)
          (lastOk_append_right (lastOk_of_stripL ht) hT)
      by_cases hN : n = []
      · subst hD; subst hN
        have hL : aggregate [] t [] = audioMarker ++ t := by
          simp [aggregate, List.isEmpty_nil, htE, joinBlank, hst, stripL_nil,
            isEmpty_false_of_ne (append_ne_nil_left t hAne)]
        have hR : aggregateSpec [] t [] = audioMarker ++ t := by
          simp [aggregateSpec, htE, joinBlank, hst]
        rw [hL, hR]
        exact ⟨rfl, append_ne_nil_left t hAne⟩
      · subst hD
        have hnE : n.isEmpty = false := isEmpty_false_of_ne hN
        have hbig : stripL (audioMarker ++ (t ++ '\n' :: '\n' :: (notesMarker ++ n)))
            = audioMarker ++ (t ++ '\n' :: '\n' :: (notesMarker ++ n)) :=
          stripL_eq_self (headOk_append_left hAhead hAne)
            (lastOk_append_right
              (lastOk_append_right
                (lastOk_cons2 '\n' '\n'
                  (lastOk_append_right (lastOk_of_stripL hn) hN)
                  (append_ne_nil_left n hNne))
                (by intro h; simp at h))
              (append_ne_nil_left ('\n' :: '\n' :: (notesMarker ++ n)) hT))
        have hatE : (audioMarker ++ t).isEmpty = false :=
          isEmpty_false_of_ne (append_ne_nil_left t hAne)
        have hL : aggregate [] t n
            = (audioMarker ++ t) ++ '\n' :: '\n' :: (notesMarker ++ n) := by
          simp [aggregate, List.isEmpty_nil, htE, hn, hnE, joinBlank, hst, hatE,
            isEmpty_false_of_ne (append_ne_nil_left ('\n' :: '\n' :: (notesMarker ++ n))
              (append_ne_nil_left t hAne))]
        have hR : aggregateSpec [] t n
            = audioMarker ++ (t ++ '\n' :: '\n' :: (notesMarker ++ n)) := by
          simp [aggregateSpec, htE, hnE, joinBlank, hbig]
        rw [hL, hR]
        exact ⟨by simp [List.append_assoc], append_ne_nil_left _ (append_ne_nil_left t hAne)⟩
  · -- document present
    have hdE : d.isEmpty = false := isEmpty_false_of_ne hD
    have hdHead : headOk d := headOk_of_stripL hd
    have hdLast : lastOk d := lastOk_of_stripL hd
    by_cases hT : t = []
    · by_cases hN : n = []
      · subst hT; subst hN
        have hL : aggregate d [] [] = d := by
          simp [aggregate, hdE, List.isEmpty_nil, joinBlank, hd, stripL_nil,
            isEmpty_false_of_ne hD]
        have hR : aggregateSpec d [] [] = d := by
          simp [aggregateSpec, hdE, joinBlank, hd]
        rw [hL, hR]
        exact ⟨rfl, hD⟩
      · subst hT
        have hnE : n.isEmpty = false := isEmpty_false_of_ne hN
        have hbig : stripL (d ++ '\n' :: '\n' :: (notesMarker ++ n))
            = d ++ '\n' :: '\n' :: (notesMarker ++ n) :=
          stripL_eq_self (headOk_append_left hdHead hD)
            (lastOk_append_right
              (lastOk_cons2 '\n' '\n'
                (lastOk_append_right (lastOk_of_stripL hn) hN)
                (append_ne_nil_left n hNne))
              (by intro h; simp at h))
        have hL : aggregate d [] n = d ++ '\n' :: '\n' :: (notesMarker ++ n) := by
          simp [aggregate, hdE, List.isEmpty_nil, hn, hnE, joinBlank, hd, stripL_nil,
            isEmpty_false_of_ne (append_ne_nil_left ('\n' :: '\n' :: (notesMarker ++ n)) hD)]
        have hR : aggregateSpec d [] n = d ++ '\n' :: '\n' :: (notesMarker ++ n) := by
          simp [aggregateSpec, hdE, hnE, joinBlank, hbig]
        rw [hL, hR]
        exact ⟨rfl, append_ne_nil_left _ hD⟩
    · have htE : t.isEmpty = false := isEmpty_false_of_ne hT
      have hjoin : stripL (d ++ '\n' :: '\n' :: (audioMarker ++ t))
          = d ++ '\n' :: '\n' :: (audioMarker ++ t) :=
        stripL_eq_self (headOk_append_left hdHead hD)
          (lastOk_append_right
            (lastOk_cons2 '\n' '\n'
              (lastOk_append_right (lastOk_of_stripL ht) hT)
              (append_ne_nil_left t hAne))
            (by intro h; simp at h))
      have hjE : (d ++ '\n' :: '\n' :: (audioMarker ++ t)).isEmpty = false :=
        isEmpty_false_of_ne (append_ne_nil_left _ hD)
      by_cases hN : n = []
      · subst hN
        have hL : aggregate d t [] = d ++ '\n' :: '\n' :: (audioMarker ++ t) := by
          simp [aggregate, hdE, htE, List.isEmpty_nil, joinBlank, hjoin, stripL_nil, hjE]
        have hR : aggregateSpec d t [] = d ++ '\n' :: '\n' :: (audioMarker ++ t) := by
          simp [aggregateSpec, hdE, htE, joinBlank, hjoin]
        rw [hL, hR]
        exact ⟨rfl, append_ne_nil_left _ hD⟩
      · have hnE : n.isEmpty = false := isEmpty_false_of_ne hN
        have hbig : stripL
            (d ++ '\n' :: '\n' :: (audioMarker ++ (t ++ '\n' :: '\n' :: (notesMarker ++ n))))
            = d ++ '\n' :: '\n' :: (audioMarker ++ (t ++ '\n' :: '\n' :: (notesMarker ++ n))) :=
          stripL_eq_self (headOk_append_left hdHead hD)
            (lastOk_append_right
              (lastOk_cons2 '\n' '\n'
                (lastOk_append_right
                  (lastOk_append_right
                    (lastOk_cons2 '\n' '\n'
                      (lastOk_append_right (lastOk_of_stripL hn) hN)
                      (append_ne_nil_left n hNne))
                    (by intro h; simp at h))
                  (append_ne_nil_left ('\n' :: '\n' :: (notesMarker ++ n)) hT))
                (append_ne_nil_left _ hAne))
              (by intro h; simp at h))
        have hL : aggregate d t n
            = (d ++ '\n' :: '\n' :: (audioMarker ++ t)) ++ '\n' :: '\n' :: (notesMarker ++ n) := by
          simp [aggregate, hdE, htE, hn, hnE, joinBlank, hjoin, hjE,
            isEmpty_false_of_ne
              (append_ne_nil_left ('\n' :: '\n' :: (notesMarker ++ n))
                (append_ne_nil_left _ hD))]
        have hR : aggregateSpec d t n
            = d ++ '\n' :: '\n' :: (audioMarker ++ (t ++ '\n' :: '\n' :: (notesMarker ++ n))) := by
          simp [aggregateSpec, hdE, htE, hnE, joinBlank, hbig]
        rw [hL, hR]
        constructor
        · simp [List.append_assoc]
        · exact append_ne_nil_left _ (append_ne_nil_left _ hD)

/-- C6 amended-theorem witness: concrete stripped inputs. -/
theorem c6_witness :
    aggregate "doc body".data "spoken words".data "note line".data
      = aggregateSpec "doc body".data "spoken words".data "note line".data ∧
    aggregate "doc body".data "spoken words".data "note line".data ≠ [] :=
  c6_aggregate_amended "doc body".data "spoken words".data "note line".data
    (by decide) (by decide) (by decide)

/-!
## C10: markdown exporters (`src/generator/markdown_export.py`)

`markdown_export.py` imports the dataclasses from `generator/models.py`.
Its `instructor_guide_to_markdown` reads `section.talking_points` and
`section.suggested_activities`, attributes `models.InstructorSection`
does not declare (it has `instructional_steps` and `key_points`), so
Python raises `AttributeError` for every guide with at least one section.
Attribute access on the dataclass is embedded explicitly. -/

namespace MarkdownExport

/-- Python attribute access on a `models.InstructorSection` instance:
exactly the five declared dataclass fields; anything else raises
`AttributeError`. -/
def sectionAttr (s : InstructorSection) : String → Except PyErr PyVal
  | "title" => .ok (.str s.title)
  | "learning_objectives" => .ok (.list s.learning_objectives)
  | "instructional_steps" => .ok (.list s.instructional_steps)
  | "key_points" => .ok (.list s.key_points)
  | "estimated_time_minutes" => .ok s.estimated_time_minutes
  | name => .error (.attributeError name)

/-- The per-section body of `instructor_guide_to_markdown`, attribute
accesses in source order. -/
def exportSection (s : InstructorSection) : Except PyErr (List String) := do
  let title ← sectionAttr s "title"
  let head := ["## " ++ pyStr title]
  let lo ← sectionAttr s "learning_objectives"
  let loBlock ← if truthy lo then do
      let items ← pyIter lo
      pure (["**Learning Objectives:**"] ++ items.map (fun it => "- " ++ pyStr it) ++ [""])
    else pure ([] : List String)
  let tp ← sectionAttr s "talking_points"
  let tpBlock ← if truthy tp then do
      let items ← pyIter tp
      pure (["**Talking Points:**"] ++ items.map (fun it => "- " ++ pyStr it) ++ [""])
    else pure ([] : List String)
  let sa ← sectionAttr s "suggested_activities"
  let saBlock ← if truthy sa then do
      let items ← pyIter sa
      pure (["**Activities / Demonstrations:**"]
        ++ items.map (fun it => "- " ++ pyStr it) ++ [""])
    else pure ([] : List String)
  let et ← sectionAttr s "estimated_time_minutes"
  let etBlock := if truthy et then ["**Estimated Time:** " ++ pyStr et ++ " minutes", ""]
    else ([] : List String)
  pure (head ++ loBlock ++ tpBlock ++ saBlock ++ etBlock)

/-- `markdown_export.instructor_guide_to_markdown`:
`"\n".join(md).strip()` over the heading and the section blocks. -/
def instructor_guide_to_markdown (guide : InstructorGuide) : Except PyErr String := do
  let blocks ← guide.sections.mapM exportSection
  pure (stripS (String.intercalate "\n" (["# Instructor Guide", ""] ++ blocks.flatten)))

end MarkdownExport

/-- C10 (code bug): the exporter renders the empty guide (only the
top-level heading survives the strip), but raises `AttributeError` on
`talking_points` for every guide with at least one section — even an
entirely well-typed, all-default one — because `models.InstructorSection`
has no such field.  This contradicts the claimed totality of every
markdown exporter. -/
theorem c10_instructor_export_raises :
    MarkdownExport.instructor_guide_to_markdown { sections := [] }
      = .ok "# Instructor Guide" ∧
    MarkdownExport.instructor_guide_to_markdown
      { sections := [{ title := "Kickoff", learning_objectives := [],
                       instructional_steps := [], key_points := [],
                       estimated_time_minutes := .none }] }
      = .error (.attributeError "talking_points") := ⟨rfl, rfl⟩

/-!
## Batch processing (`src/generator/batch_processor.py`)

Supporting pieces: `markdown_utils.outline_to_markdown` /
`video_script_to_markdown` (all accessed attributes exist, so these are
plain functions), `audio.synthesize_narration_audio` (whose top-level
`get_client()` raises `MissingOpenAIKeyError` outside any `try`), and
`slugify`.
-/

namespace MarkdownUtils

/-- `markdown_utils.outline_to_markdown`. -/
def outline_to_markdown (o : ClassOutline) : String :=
  let sectionLines := o.sections.map fun s =>
    ["## " ++ s.title] ++
    (if s.objectives.isEmpty then []
     else ["### Objectives"] ++ s.objectives.map (fun x => "- " ++ pyStr x) ++ [""]) ++
    (if s.subtopics.isEmpty then []
     else ["### Subtopics"] ++ s.subtopics.map (fun x => "- " ++ pyStr x) ++ [""]) ++
    (if truthy s.duration_minutes
     then ["**Duration:** " ++ pyStr s.duration_minutes ++ " minutes", ""] else [])
  stripS (String.intercalate "\n" (["# " ++ pyStr o.title, ""] ++ sectionLines.flatten))

/-- `markdown_utils.video_script_to_markdown` (`enumerate(..., start=1)`). -/
def video_script_to_markdown (v : VideoScript) : String :=
  let segLines := v.segments.enum.map fun p =>
    ["## Segment " ++ toString (p.1 + 1) ++ ": " ++ p.2.title,
     "### Narration", p.2.narration, "",
     "### Screen Directions", p.2.screen_directions, ""] ++
    (if truthy p.2.approx_duration_seconds
     then ["**Approx Duration:** " ++ pyStr p.2.approx_duration_seconds ++ " seconds"]
     else []) ++ [""]
  stripS (String.intercalate "\n" (["# Video Script", ""] ++ segLines.flatten))

end MarkdownUtils

/-- Python `\w` (ASCII approximation, as used by `slugify`'s inputs). -/
def isWordChar (c : Char) : Bool := c.isAlphanum || c == '_'

/-- A character the second `re.sub` collapses (`[-\s]+`). -/
def isDashWS (c : Char) : Bool := c == '-' || wsChar c

/-- Collapse runs of `[-\s]+` into single hyphens (scan with a flag for
"previous character was in a collapsed run"). -/
def collapseDashWS : Bool → List Char → List Char
  | _, [] => []
  | prev, c :: rest =>
      if isDashWS c then
        if prev then collapseDashWS true rest
        else '-' :: collapseDashWS true rest
      else c :: collapseDashWS false rest

/-- `batch_processor.slugify`: `str(value)`, drop everything outside
`[\w\s-]`, strip, lower-case, collapse `[-\s]+` runs to `-`. -/
def slugify (v : PyVal) : String :=
  let s := pyStr v
  let kept := s.data.filter fun c => isWordChar c || wsChar c || c == '-'
  String.mk (collapseDashWS false ((stripL kept).map Char.toLower))

/-- `audio.synthesize_narration_audio`: `get_client()` raises
`MissingOpenAIKeyError` before the loop when no key is configured;
afterwards each segment's TTS call sits in its own `try/except`, skipping
empty narrations and converting failures into an `_ERROR.txt` entry (the
exception text is abstracted).  `tts i` is the external speech service's
outcome for segment number `i`. -/
def synthesize_narration_audio (hasKey : Bool) (tts : Nat → Except Unit String)
    (script : VideoScript) : Except PyErr (List (String × String)) :=
  if hasKey then
    .ok (script.segments.enum.foldl
      (fun acc p =>
        let idx := p.1 + 1
        let narration_text := stripS p.2.narration
        if narration_text.isEmpty then acc
        else match tts idx with
          | .ok audio_bytes => acc ++ [("segment_" ++ toString idx ++ ".wav", audio_bytes)]
          | .error _ =>
              acc ++ [("segment_" ++ toString idx ++ "_ERROR.txt",
                "Error generating TTS for segment " ++ toString idx)]) [])
  else .error .missingOpenAIKey

/-- One CSV row after `parse_csv`: `DictReader` guarantees the four
required keys exist but fills short rows' values with `None`
(`Option.none` here). -/
structure Row where
  num : Option String
  video_file : Option String
  est_duration : Option String
  brief_description : Option String
deriving Repr, DecidableEq

/-- `str(v)` of an optional string interpolated into an f-string. -/
def optStr : Option String → String
  | some s => s
  | Option.none => "None"

/-- The runtime value of an optional string. -/
def optVal : Option String → PyVal
  | some s => .str s
  | Option.none => .none

/-- A progress-callback invocation or the completion of one row — the
observable event trace of `process_batch`.  The float `i / total` is
modelled as an exact rational. -/
inductive BEvent where
  | progress (frac : ℚ) (label : String)
  | rowDone (idx : Nat)
deriving Repr, DecidableEq

/-- The progress label
`f"Processing Class {row['#']}: {row['brief_description'][:30]}..."`:
slicing `None[:30]` raises `TypeError` when the description value is
missing, while `str(row['#'])` of `None` is just `"None"`. -/
def labelFor (r : Row) : Except PyErr String :=
  match r.brief_description with
  | some s => .ok ("Processing Class " ++ optStr r.num ++ ": " ++ s.take 30 ++ "...")
  | Option.none => .error .typeError

/-- One iteration of `process_batch`'s row loop, in source order:
progress callback, `row.get('#','000').strip()` (raises on a `None`
value), the no-op duration `try` block (omitted), slug and folder name,
outline generation + markdown, video-script generation + markdown, audio
synthesis.  `llm` and `tts` are the external-service oracles; the synthetic
`context_text` feeds prompts only. -/
def processRow (hasKey : Bool) (llm : Nat → Generator.GLLMOutcome)
    (tts : Nat → Nat → Except Unit String) (useCallback : Bool)
    (n i : Nat) (r : Row) :
    Except PyErr (List (String × String) × List BEvent) := do
  let evs ← if useCallback then do
      let lbl ← labelFor r
      pure [BEvent.progress ((i : ℚ) / (n : ℚ)) lbl]
    else pure ([] : List BEvent)
  let class_number ← (match r.num with
    | some s => .ok (stripS s)
    | Option.none => .error (.attributeError "strip"))
  let description := r.brief_description
  let video_filename := r.video_file
  let context_text := "Video File Reference: " ++ optStr video_filename ++ "\n" ++
    "Estimated Duration: " ++ optStr r.est_duration ++ "\n" ++
    "Description/Context: " ++ optStr description ++ "\n"
  let slug := (slugify (optVal description)).take 30
  let folder := "Class_" ++ class_number ++ "_" ++ slug
  let outline_title := "Class " ++ class_number ++ ": " ++ optStr description
  let outline := Generator.generate_class_outline context_text outline_title
    "Video Walkthrough" hasKey (llm (2 * i))
  let outline_md := MarkdownUtils.outline_to_markdown outline
  let script := Generator.generate_video_script context_text outline_title
    "Video Walkthrough" hasKey (llm (2 * i + 1))
  let script_md := MarkdownUtils.video_script_to_markdown script
  let audio ← synthesize_narration_audio hasKey (tts i) script
  pure ([(folder ++ "/class_outline.md", outline_md),
         (folder ++ "/video_script.md", script_md)] ++
        audio.map (fun p => (folder ++ "/Audio/" ++ p.1, p.2)),
        evs ++ [BEvent.rowDone i])

/-- The `for i, row in enumerate(rows)` loop: an exception in any row
propagates immediately (there is no per-row handler in the source). -/
def batchLoop (hasKey : Bool) (llm : Nat → Generator.GLLMOutcome)
    (tts : Nat → Nat → Except Unit String) (useCallback : Bool) (n : Nat) :
    Nat → List Row → Except PyErr (List (String × String) × List BEvent)
  | _, [] => .ok ([], [])
  | i, r :: rs => do
      let (a, e) ← processRow hasKey llm tts useCallback n i r
      let (a2, e2) ← batchLoop hasKey llm tts useCallback n (i + 1) rs
      pure (a ++ a2, e ++ e2)

/-- `BatchProcessor.process_batch`: run the loop over all rows, then the
final `progress_callback(1.0, "Structuring final ZIP package...")`, and
return the archive entries plus the event trace. -/
def process_batch (hasKey : Bool) (llm : Nat → Generator.GLLMOutcome)
    (tts : Nat → Nat → Except Unit String) (useCallback : Bool)
    (rows : List Row) :
    Except PyErr (List (String × String) × List BEvent) := do
  let (a, e) ← batchLoop hasKey llm tts useCallback rows.length 0 rows
  let fin := if useCallback
    then [BEvent.progress 1 "Structuring final ZIP package..."]
    else ([] : List BEvent)
  pure (a, e ++ fin)

/-!
### C7: no per-row failure isolation
-/

/-- First batch row: note the malformed duration string (which the code
never parses — the `try` block around it is a no-op — so it cannot fail);
the in-loop failure that does occur is `synthesize_narration_audio`'s
`get_client()` raising `MissingOpenAIKeyError` when no key is configured. -/
def c7row1 : Row :=
  { num := some "1", video_file := some "intro.mp4",
    est_duration := some "about ninety", brief_description := some "Intro to Widgets" }

/-- Second batch row, never reached. -/
def c7row2 : Row :=
  { num := some "2", video_file := some "deep.mp4",
    est_duration := some "45", brief_description := some "Advanced Widgets" }

/-- C7 (code bug): the row loop has no per-row exception handler, so a
failure while processing row 1 (here the audio-synthesis step raising
`MissingOpenAIKeyError`) propagates out of `process_batch`: row 2 is
never processed, no error note is embedded anywhere, and no archive is
returned — whatever the LLM and TTS oracles would have answered. -/
theorem c7_row_failure_aborts_batch (llm : Nat → Generator.GLLMOutcome)
    (tts : Nat → Nat → Except Unit String) :
    process_batch false llm tts true [c7row1, c7row2] = .error .missingOpenAIKey := rfl

/-!
### C8: progress reporting over a successful batch
-/

/-- A row every step of the loop survives: the `#` and
`brief_description` values are present. -/
def wfRow (r : Row) : Prop :=
  r.num.isSome = true ∧ r.brief_description.isSome = true

/-- The label `processRow` passes to the callback for a well-formed row. -/
def mkLabel (r : Row) : String :=
  "Processing Class " ++ optStr r.num ++ ": " ++ (r.brief_description.getD "").take 30 ++ "..."

/-- The event trace the loop emits from index `i` on. -/
def trailFrom (n : Nat) : Nat → List Row → List BEvent
  | _, [] => []
  | i, r :: rs =>
      BEvent.progress ((i : ℚ) / (n : ℚ)) (mkLabel r) :: BEvent.rowDone i ::
        trailFrom n (i + 1) rs

theorem exists_ok_of_map_snd {A B : Type} {X : Except PyErr (A × B)} {b : B}
    (h : X.map Prod.snd = .ok b) : ∃ a, X = .ok (a, b) := by
  cases X with
  | ok p =>
      cases p with
      | mk x y =>
          simp [Except.map] at h
          exact ⟨x, by rw [h]⟩
  | error e => simp [Except.map] at h

theorem processRow_snd (llm : Nat → Generator.GLLMOutcome)
    (tts : Nat → Nat → Except Unit String) (n i : Nat) (r : Row)
    (h1 : r.num.isSome = true) (h2 : r.brief_description.isSome = true) :
    (processRow true llm tts true n i r).map Prod.snd
      = .ok [BEvent.progress ((i : ℚ) / (n : ℚ)) (mkLabel r), BEvent.rowDone i] := by
  obtain ⟨u, hu⟩ := Option.isSome_iff_exists.mp h1
  obtain ⟨s, hs⟩ := Option.isSome_iff_exists.mp h2
  simp [processRow, labelFor, hu, hs, mkLabel, optStr, synthesize_narration_audio,
    Except.map, bind, Except.bind, pure, Except.pure, Option.getD]

theorem batchLoop_ok (llm : Nat → Generator.GLLMOutcome)
    (tts : Nat → Nat → Except Unit String) (n : Nat) :
    ∀ (rows : List Row) (i : Nat), (∀ r ∈ rows, wfRow r) →
    ∃ a, batchLoop true llm tts true n i rows = .ok (a, trailFrom n i rows) := by
  intro rows
  induction rows with
  | nil => exact fun i _ => ⟨[], rfl⟩
  | cons r rs ih =>
      intro i hwf
      obtain ⟨h1, h2⟩ := hwf r (List.mem_cons_self r rs)
      obtain ⟨a, ha⟩ := exists_ok_of_map_snd (processRow_snd llm tts n i r h1 h2)
      obtain ⟨a2, ha2⟩ := ih (i + 1) fun x hx => hwf x (List.mem_cons_of_mem r hx)
      refine ⟨a ++ a2, ?_⟩
      simp [batchLoop, ha, ha2, trailFrom, bind, Except.bind, pure, Except.pure]

/-- After each completed row `j` the very next callback carries fraction
`(j+1)/n` — delivered at the start of row `j+1`, or by the final `1.0`
call when `j` was the last row. -/
theorem trail_after (fin : String) (n : Nat) :
    ∀ (rows : List Row) (i j : Nat), i + rows.length = n → i ≤ j → j < n →
    ∃ p q lbl, trailFrom n i rows ++ [BEvent.progress 1 fin]
      = p ++ BEvent.rowDone j ::
          BEvent.progress (((j + 1 : Nat) : ℚ) / (n : ℚ)) lbl :: q := by
  intro rows
  induction rows with
  | nil =>
      intro i j hlen hij hjn
      simp at hlen
      omega
  | cons r rs ih =>
      intro i j hlen hij hjn
      rcases Nat.eq_or_lt_of_le hij with heq | hlt
      · subst heq
        cases rs with
        | nil =>
            have hn1 : i + 1 = n := by simpa using hlen
            have hfrac : (((i : ℚ) + 1) / (n : ℚ)) = 1 := by
              have : ((i : ℚ) + 1) = (n : ℚ) := by exact_mod_cast hn1
              rw [this]
              exact div_self (by exact_mod_cast (by omega : n ≠ 0))
            refine ⟨[BEvent.progress ((i : ℚ) / (n : ℚ)) (mkLabel r)], [], fin, ?_⟩
            simp [trailFrom, hfrac]
        | cons r2 rs2 =>
            refine ⟨[BEvent.progress ((i : ℚ) / (n : ℚ)) (mkLabel r)],
              BEvent.rowDone (i + 1) :: trailFrom n (i + 2) rs2 ++ [BEvent.progress 1 fin],
              mkLabel r2, ?_⟩
            simp [trailFrom]
      · obtain ⟨p, q, lbl, hp⟩ := ih (i + 1) j (by simp at hlen ⊢; omega) hlt hjn
        refine ⟨BEvent.progress ((i : ℚ) / (n : ℚ)) (mkLabel r) :: BEvent.rowDone i :: p,
          q, lbl, ?_⟩
        simp [trailFrom, hp]

/-- Fraction `1.0` detector. -/
def isFull : BEvent → Bool
  | .progress q _ => q == 1
  | _ => false

/-- No in-loop callback ever carries `1.0`: the per-row fractions are
`i / n` with `i < n`. -/
theorem trail_count (n : Nat) :
    ∀ (rows : List Row) (i : Nat), i + rows.length = n →
    (trailFrom n i rows).countP isFull = 0 := by
  intro rows
  induction rows with
  | nil => intro i _; rfl
  | cons r rs ih =>
      intro i hlen
      have hin : i < n := by simp at hlen; omega
      have hne : (n : ℚ) ≠ 0 := by exact_mod_cast (by omega : n ≠ 0)
      have hfr : isFull (BEvent.progress ((i : ℚ) / (n : ℚ)) (mkLabel r)) = false := by
        simp only [isFull]
        rw [beq_eq_false_iff_ne]
        intro habs
        rw [div_eq_one_iff_eq hne] at habs
        have : i = n := by exact_mod_cast habs
        omega
      rw [trailFrom, List.countP_cons, List.countP_cons]
      rw [ih (i + 1) (by simp at hlen ⊢; omega)]
      simp [hfr, show isFull (BEvent.rowDone i) = false from rfl]

/-- C8: over a non-empty batch of well-formed rows that processes to the
end, `process_batch` returns the archive, and its callback trace (i) has,
after each completed row `j`, an invocation with fraction
`(j+1)/total = rows-processed/total` and a label, (ii) carries the
fraction `1.0` exactly once, and (iii) ends with that `1.0` call. -/
theorem c8_progress_reporting (rows : List Row) (llm : Nat → Generator.GLLMOutcome)
    (tts : Nat → Nat → Except Unit String)
    (hne : rows ≠ []) (hwf : ∀ r ∈ rows, wfRow r) :
    ∃ arch tr, process_batch true llm tts true rows = .ok (arch, tr) ∧
      (∀ j, j < rows.length → ∃ p q lbl,
        tr = p ++ BEvent.rowDone j ::
          BEvent.progress (((j + 1 : Nat) : ℚ) / (rows.length : ℚ)) lbl :: q) ∧
      tr.countP isFull = 1 ∧
      tr.getLast? = some (BEvent.progress 1 "Structuring final ZIP package...") := by
  obtain ⟨a, ha⟩ := batchLoop_ok llm tts rows.length rows 0 hwf
  refine ⟨a, trailFrom rows.length 0 rows ++
    [BEvent.progress 1 "Structuring final ZIP package..."], ?_, ?_, ?_, ?_⟩
  · simp [process_batch, ha, bind, Except.bind, pure, Except.pure]
  · intro j hj
    exact trail_after _ rows.length rows 0 j (by simp) (Nat.zero_le j) hj
  · rw [List.countP_append, trail_count rows.length rows 0 (by simp)]
    simp [isFull]
  · rw [List.getLast?_append_of_ne_nil _ (by simp)]
    rfl

/-- The concrete two-row batch used by the C8 witness. -/
def c8rows : List Row :=
  [{ num := some "1", video_file := some "a.mp4", est_duration := some "45",
     brief_description := some "Basics" },
   { num := some "2", video_file := some "b.mp4", est_duration := some "60",
     brief_description := some "Advanced" }]

/-- C8 witness: a concrete two-row batch with failing external services
(the trace does not depend on their outcomes). -/
theorem c8_witness :
    ∃ arch tr, process_batch true (fun _ => Generator.GLLMOutcome.apiFailure)
        (fun _ _ => .error ()) true c8rows = .ok (arch, tr) ∧
      (∀ j, j < c8rows.length → ∃ p q lbl,
        tr = p ++ BEvent.rowDone j ::
          BEvent.progress (((j + 1 : Nat) : ℚ) / (c8rows.length : ℚ)) lbl :: q) ∧
      tr.countP isFull = 1 ∧
      tr.getLast? = some (BEvent.progress 1 "Structuring final ZIP package...") :=
  c8_progress_reporting c8rows (fun _ => Generator.GLLMOutcome.apiFailure)
    (fun _ _ => .error ()) (by decide)
    (by intro r hr
        simp [c8rows] at hr
        rcases hr with h | h <;> subst h <;> exact ⟨rfl, rfl⟩)

end CourseCreator
